import Mathlib

/-!
# FiPLSim — verification of the hydraulic network solver core

Shallow embedding, over `ℚ`, of the core of the FiPLSim fire-sprinkler
hydraulic simulator: the constants table (`constants.py`), the hydraulics
primitives (`hydraulics.py`), the tree-network generator and pressure walk
(`pipe_network.py`) and the grid / Hardy-Cross solver (`hardy_cross.py`).

Python floats are idealised as rationals.  The three transcendental
primitives the code uses (`math.pi`, `math.sqrt`, `math.log10`) cannot be
computed in `ℚ`; every definition that needs them is parametrised by a
`FloatOps` record carrying a rational stand-in for each, and every theorem
quantifies over that record, so nothing proved depends on their values.
`float('inf')` (returned by `k_welded_fitting` on a blocked pipe) is
modelled by `Option ℚ` with `none` standing for the infinity sentinel.
Exceptions are modelled with `Except`.  The in-place mutation of
`GridPipe.flow_lpm` during Hardy-Cross iteration is modelled by explicit
state passing of the list of flows (indexed by pipe id).
Display-only rounding (Python `round(x, n)` in the `segment_details` /
`node_data` presentation rows) is not modelled; no modelled quantity
depends on those rows.
-/

namespace FiPLSim

/-- Rational stand-ins for the float math primitives `math.pi`,
`math.sqrt` and `math.log10` used by the source. -/
structure FloatOps where
  pi : ℚ
  sqrt : ℚ → ℚ
  log10 : ℚ → ℚ

/-! ## constants.py -/

/-- Fluid density (kg/m³), `RHO = 998.0`. -/
def RHO : ℚ := 998

/-- Dynamic viscosity (Pa·s), `MU = 1.002e-3`. -/
def MU : ℚ := 1002 / 1000000

/-- Kinematic viscosity, `NU = MU / RHO`. -/
def NU : ℚ := MU / RHO

/-- Gravity (m/s²), `G = 9.81`. -/
def G : ℚ := 981 / 100

/-- Absolute pipe roughness in metres, `EPSILON_M = 0.045 / 1000`. -/
def EPSILON_M : ℚ := (45 / 1000) / 1000

/-- The nominal pipe sizes of the `PIPE_DIMENSIONS` table
(`"25A"` … `"100A"`). -/
inductive PipeSize where
  | s25A | s32A | s40A | s50A | s65A | s80A | s100A
deriving DecidableEq, Repr

/-- Inner diameter in millimetres, the `id_mm` column of
`PIPE_DIMENSIONS`. -/
def id_mm : PipeSize → ℚ
  | .s25A => 2664 / 100
  | .s32A => 3504 / 100
  | .s40A => 4090 / 100
  | .s50A => 5251 / 100
  | .s65A => 6271 / 100
  | .s80A => 7792 / 100
  | .s100A => 10226 / 100

/-- `get_inner_diameter_m`: inner diameter in metres from the nominal
size. -/
def get_inner_diameter_m (s : PipeSize) : ℚ := id_mm s / 1000

/-- `K1_BASE = 0.5`, base welded-fitting coefficient. -/
def K1_BASE : ℚ := 1 / 2

/-- `K2 = 2.5`, head-fitting coefficient. -/
def K2 : ℚ := 5 / 2

/-- `K3 = 1.0`, branch-entry (tee-branch) coefficient. -/
def K3 : ℚ := 1

/-- `K_TEE_RUN = 0.3`, cross-main straight-run tee coefficient. -/
def K_TEE_RUN : ℚ := 3 / 10

/-- `HC_MAX_ITERATIONS = 1000`. -/
def HC_MAX_ITERATIONS : ℕ := 1000

/-- `HC_TOLERANCE_M = 0.001`. -/
def HC_TOLERANCE_M : ℚ := 1 / 1000

/-- `HC_TOLERANCE_LPM = 0.0001`. -/
def HC_TOLERANCE_LPM : ℚ := 1 / 10000

/-- `HC_RELAXATION_FACTOR = 0.5`. -/
def HC_RELAXATION_FACTOR : ℚ := 1 / 2

/-- `MAX_BRANCHES = 200`. -/
def MAX_BRANCHES : ℤ := 200

/-- `MAX_HEADS_PER_BRANCH = 50`. -/
def MAX_HEADS_PER_BRANCH : ℤ := 50

/-- `auto_pipe_size`: branch-segment nominal size from the number of
downstream heads (argument is a Python int, modelled as `ℤ`). -/
def auto_pipe_size (num_heads_downstream : ℤ) : PipeSize :=
  if num_heads_downstream ≥ 12 then .s65A
  else if num_heads_downstream ≥ 6 then .s50A
  else if num_heads_downstream ≥ 4 then .s40A
  else if num_heads_downstream ≥ 3 then .s32A
  else .s25A

/-- `auto_cross_main_size`: cross-main nominal size from the total head
count. -/
def auto_cross_main_size (total_heads : ℤ) : PipeSize :=
  if total_heads ≥ 40 then .s100A
  else if total_heads ≥ 20 then .s80A
  else .s65A

/-! ## hydraulics.py -/

/-- `reynolds_number(velocity, diameter, nu)`: `Re = V·D/ν`, `0` on
non-positive `D` or `ν`. -/
def reynolds_number (velocity diameter nu : ℚ) : ℚ :=
  if diameter ≤ 0 ∨ nu ≤ 0 then 0
  else velocity * diameter / nu

/-- `velocity_from_flow(Q_lpm, D_m)`: mean velocity in a circular pipe,
`0` on non-positive area.  Uses `math.pi` through `fops`. -/
def velocity_from_flow (fops : FloatOps) (Q_lpm D_m : ℚ) : ℚ :=
  let Q_m3s := Q_lpm / 60000
  let A := fops.pi * (D_m / 2) ^ 2
  if A ≤ 0 then 0 else Q_m3s / A

/-- The Colebrook–White fixed-point loop of `friction_factor` (the
`for _ in range(10)` body), with the iteration count as fuel. -/
def cwFixedPoint (fops : FloatOps) (A B : ℚ) : ℕ → ℚ → ℚ
  | 0, f => f
  | Nat.succ fuel, f =>
    let sqrt_f := fops.sqrt f
    let inner0 := A + B / sqrt_f
    let inner := if inner0 ≤ 0 then 1 / 10 ^ 10 else inner0
    let rhs := -2 * fops.log10 inner
    if rhs = 0 then f
    else
      let f_new := 1 / rhs ^ 2
      if |f_new - f| / max f (1 / 10 ^ 12) < 1 / 10 ^ 8 then f_new
      else cwFixedPoint fops A B fuel f_new

/-- `friction_factor(Re, epsilon, D)`: Darcy friction factor.
Laminar (`Re < 2300`): closed form `64/Re`.  Turbulent: Swamee–Jain seed
then up to 10 Colebrook–White fixed-point steps. -/
def friction_factor (fops : FloatOps) (Re epsilon D : ℚ) : ℚ :=
  if Re ≤ 0 then 0
  else if Re < 2300 then 64 / Re
  else
    let rel_rough := epsilon / D
    let A := rel_rough / (37 / 10)
    let B := (251 / 100) / Re
    let log_arg0 := A + B / fops.sqrt (1 / 50)
    let log_arg := if log_arg0 ≤ 0 then 1 / 10 ^ 10 else log_arg0
    let f0 := (1 / 4) / (fops.log10 log_arg) ^ 2
    cwFixedPoint fops A B 10 f0

/-- `major_loss(f, L, D, V) = f·(L/D)·(V²/2g)`, `0` on non-positive
`D`. -/
def major_loss (f L D V : ℚ) : ℚ :=
  if D ≤ 0 then 0
  else f * (L / D) * (V ^ 2 / (2 * G))

/-- `minor_loss(K, V) = K·(V²/2g)`. -/
def minor_loss (K V : ℚ) : ℚ :=
  K * (V ^ 2 / (2 * G))

/-- `k_welded_fitting(bead_height_mm, pipe_id_mm, base_K)`:
`K = base_K·(D/D_eff)⁴` with `D_eff = D − 2·bead`; `none` models the
`float('inf')` sentinel returned (without raising) when `D_eff ≤ 0`. -/
def k_welded_fitting (bead_height_mm pipe_id_mm base_K : ℚ) : Option ℚ :=
  let D := pipe_id_mm
  let D_eff := D - 2 * bead_height_mm
  if D_eff ≤ 0 then none
  else some (base_K * (D / D_eff) ^ 4)

/-- The finite branch of `k_welded_fitting`, used by the network
generators; agrees with `k_welded_fitting` whenever `D − 2·bead > 0`
(`k_welded_fitting_fin_eq`), which every theorem about generated
networks guarantees by hypothesis. -/
def k_welded_fitting_fin (bead_height_mm pipe_id_mm base_K : ℚ) : ℚ :=
  base_K * (pipe_id_mm / (pipe_id_mm - 2 * bead_height_mm)) ^ 4

/-- `head_to_mpa(h) = ρ·g·h / 10⁶`. -/
def head_to_mpa (h_meters : ℚ) : ℚ :=
  RHO * G * h_meters / 1000000

/-- `mpa_to_head(p) = p·10⁶ / (ρ·g)`. -/
def mpa_to_head (p_mpa : ℚ) : ℚ :=
  p_mpa * 1000000 / (RHO * G)

/-! ## pipe_network.py — data model and validation -/

/-- `PipeSegment`: one straight run. -/
structure PipeSegment where
  index : ℕ
  nominal_size : PipeSize
  inner_diameter_m : ℚ
  length_m : ℚ
deriving DecidableEq, Repr

instance : Inhabited PipeSegment := ⟨⟨0, .s25A, 0, 0⟩⟩

/-- `HeadJunction`: one sprinkler-head tap.  `K1_welded` stores the
already-computed welded-fitting coefficient (a rational; the generators
compute it with `k_welded_fitting_fin`, the finite branch of
`k_welded_fitting`). -/
structure HeadJunction where
  index : ℕ
  pipe_segment : PipeSegment
  bead_height_mm : ℚ
  K1_welded : ℚ
  K2_head : ℚ
  head_flow_lpm : ℚ
deriving DecidableEq, Repr

instance : Inhabited HeadJunction := ⟨⟨0, default, 0, 0, 0, 0⟩⟩

/-- `WeldBead`: a straight-run weld defect.  The source stores
`position_in_segment_m` rounded to 4 digits for display; the position is
never read by any computation, so it is stored unrounded here. -/
structure WeldBead where
  segment_index : ℕ
  position_in_segment_m : ℚ
  bead_height_mm : ℚ
  K_value : ℚ
deriving DecidableEq, Repr

/-- `generate_branch_beads`: beads evenly spaced when `rng = none`
(`step·(i+0.5)`), or at the sorted supplied draws when
`rng = some draws` (the draws model the stream of
`rng.uniform(0, total_length, size=num_beads)` samples).  Bead `K_value`
is computed with the finite branch of `k_welded_fitting` (all claims
about weld beads keep bead height below half the diameter). -/
def generate_branch_beads (heads_per_branch : ℕ) (head_spacing_m : ℚ)
    (num_beads : ℕ) (bead_height_mm : ℚ) (pipe_sizes : List PipeSize)
    (K1_base : ℚ) (rng : Option (List ℚ)) : List WeldBead :=
  if num_beads = 0 then []
  else
    let total_length := heads_per_branch * head_spacing_m
    let positions : List ℚ :=
      match rng with
      | some draws => draws.mergeSort (· ≤ ·)
      | none =>
        let step := total_length / num_beads
        (List.range num_beads).map (fun i => step * (i + 1 / 2))
    positions.map (fun pos =>
      let seg_idx : ℕ := min (pos / head_spacing_m).floor.toNat (heads_per_branch - 1)
      let pos_in_seg := pos - seg_idx * head_spacing_m
      let pipe_size := pipe_sizes.getD seg_idx .s25A
      let pipe_id := id_mm pipe_size
      { segment_index := seg_idx
        position_in_segment_m := pos_in_seg
        bead_height_mm := bead_height_mm
        K_value := k_welded_fitting_fin bead_height_mm pipe_id K1_base })

/-- `ValidationError`: the distinct error kind raised by
`validate_dynamic_inputs`; each constructor corresponds to one `raise`
and carries the offending input value that the source interpolates into
the message. -/
inductive ValidationError where
  | num_branches_min (v : ℤ)
  | num_branches_max (v : ℤ)
  | heads_per_branch_min (v : ℤ)
  | heads_per_branch_max (v : ℤ)
  | branch_spacing_nonpos (v : ℚ)
  | head_spacing_nonpos (v : ℚ)
  | inlet_pressure_nonpos (v : ℚ)
  | total_flow_nonpos (v : ℚ)
deriving DecidableEq, Repr

/-- `validate_dynamic_inputs`: the checks in source order.  The counts
are Python ints (modelled as `ℤ`); the `isinstance(…, int)` part of the
source's first two checks is enforced by the type. -/
def validate_dynamic_inputs (num_branches heads_per_branch : ℤ)
    (branch_spacing_m head_spacing_m inlet_pressure_mpa total_flow_lpm : ℚ) :
    Except ValidationError Unit :=
  if num_branches < 1 then .error (.num_branches_min num_branches)
  else if num_branches > MAX_BRANCHES then .error (.num_branches_max num_branches)
  else if heads_per_branch < 1 then .error (.heads_per_branch_min heads_per_branch)
  else if heads_per_branch > MAX_HEADS_PER_BRANCH then
    .error (.heads_per_branch_max heads_per_branch)
  else if branch_spacing_m ≤ 0 then .error (.branch_spacing_nonpos branch_spacing_m)
  else if head_spacing_m ≤ 0 then .error (.head_spacing_nonpos head_spacing_m)
  else if inlet_pressure_mpa ≤ 0 then .error (.inlet_pressure_nonpos inlet_pressure_mpa)
  else if total_flow_lpm ≤ 0 then .error (.total_flow_nonpos total_flow_lpm)
  else .ok ()

/-! ## pipe_network.py — tree network model -/

/-- `BranchPipe`: one branch of the tree model. -/
structure BranchPipe where
  branch_index : ℕ
  num_heads : ℕ
  junctions : List HeadJunction
  branch_flow_lpm : ℚ
  pipe_sizes : List PipeSize
  weld_beads : List WeldBead
deriving DecidableEq, Repr

instance : Inhabited BranchPipe := ⟨⟨0, 0, [], 0, [], []⟩⟩

/-- `CrossMainSegment`. -/
structure CrossMainSegment where
  index : ℕ
  nominal_size : PipeSize
  inner_diameter_m : ℚ
  length_m : ℚ
  flow_lpm : ℚ
deriving DecidableEq, Repr

/-- `DynamicSystem`: the whole tree network. -/
structure DynamicSystem where
  inlet_pressure_mpa : ℚ
  total_flow_lpm : ℚ
  num_branches : ℕ
  heads_per_branch : ℕ
  branch_spacing_m : ℚ
  head_spacing_m : ℚ
  cross_main_size : PipeSize
  cross_main_segments : List CrossMainSegment
  branches : List BranchPipe
  bead_heights : List (List ℚ)
  beads_per_branch : ℕ
deriving DecidableEq, Repr

/-- The junctions of one generated branch (the inner `for h in
range(heads_per_branch)` loop shared verbatim by
`generate_dynamic_system` and `generate_grid_network`): segment size per
head from the downstream head count, K1 from the bead height at that
joint. -/
def build_junctions (heads_per_branch : ℕ) (head_spacing_m : ℚ)
    (bead_row : List ℚ) (K1_base K2_val head_flow : ℚ) : List HeadJunction :=
  (List.range heads_per_branch).map (fun (h : ℕ) =>
    let downstream : ℤ := (heads_per_branch : ℤ) - (h : ℤ)
    let nom_size := auto_pipe_size downstream
    { index := h
      pipe_segment :=
        { index := h
          nominal_size := nom_size
          inner_diameter_m := get_inner_diameter_m nom_size
          length_m := head_spacing_m }
      bead_height_mm := bead_row.getD h 0
      K1_welded := k_welded_fitting_fin (bead_row.getD h 0) (id_mm nom_size) K1_base
      K2_head := K2_val
      head_flow_lpm := head_flow })

/-- The per-branch pipe-size list (`pipe_sizes` accumulated in the same
loop). -/
def build_pipe_sizes (heads_per_branch : ℕ) : List PipeSize :=
  (List.range heads_per_branch).map
    (fun h => auto_pipe_size ((heads_per_branch : ℤ) - h))

/-- The weld-bead list of one branch (`Step 7` of
`generate_dynamic_system`): an explicitly supplied row wins, else
automatic generation when `beads_per_branch > 0`, else no beads. -/
def build_branch_beads (heads_per_branch : ℕ) (head_spacing_m : ℚ)
    (beads_per_branch : ℕ) (bead_height_for_weld_mm : ℚ)
    (pipe_sizes : List PipeSize) (K1_base : ℚ)
    (weld_beads_2d : Option (List (List WeldBead)))
    (rng : Option (List (List ℚ))) (b : ℕ) : List WeldBead :=
  match weld_beads_2d with
  | some rows => rows.getD b []
  | none =>
    if beads_per_branch > 0 then
      generate_branch_beads heads_per_branch head_spacing_m beads_per_branch
        bead_height_for_weld_mm pipe_sizes K1_base (rng.map (fun r => r.getD b []))
    else []

/-- The body of `generate_dynamic_system` after validation (Steps 2–7).
Counts are the validated values (`≥ 1`), so they are taken as `ℕ` here.
`bead_heights_2d = none` means the all-zero array; list accesses
`xs[b][h]` are modelled with `getD` (the claims about generated systems
supply well-shaped arrays).  `rng = some draws` supplies, per branch,
the uniform draws the source's stateful generator would produce. -/
def build_dynamic_system (num_branches heads_per_branch : ℕ)
    (branch_spacing_m head_spacing_m inlet_pressure_mpa total_flow_lpm : ℚ)
    (bead_heights_2d : Option (List (List ℚ))) (K1_base K2_val : ℚ)
    (beads_per_branch : ℕ) (bead_height_for_weld_mm : ℚ)
    (weld_beads_2d : Option (List (List WeldBead)))
    (rng : Option (List (List ℚ))) : DynamicSystem :=
  let total_heads : ℤ := (num_branches : ℤ) * heads_per_branch
  let bead_heights := bead_heights_2d.getD
    (List.replicate num_branches (List.replicate heads_per_branch 0))
  let cross_main_size := auto_cross_main_size total_heads
  let cross_main_id_m := get_inner_diameter_m cross_main_size
  let branch_flow := total_flow_lpm / num_branches
  let head_flow := branch_flow / heads_per_branch
  let cross_main_segments : List CrossMainSegment :=
    (List.range num_branches).map (fun i =>
    { index := i
      nominal_size := cross_main_size
      inner_diameter_m := cross_main_id_m
      length_m := if i > 0 then branch_spacing_m else 0
      flow_lpm := total_flow_lpm - i * branch_flow })
  let pipe_sizes := build_pipe_sizes heads_per_branch
  let branches : List BranchPipe := (List.range num_branches).map (fun b =>
    { branch_index := b
      num_heads := heads_per_branch
      junctions := build_junctions heads_per_branch head_spacing_m
        (bead_heights.getD b []) K1_base K2_val head_flow
      branch_flow_lpm := branch_flow
      pipe_sizes := pipe_sizes
      weld_beads := build_branch_beads heads_per_branch head_spacing_m
        beads_per_branch bead_height_for_weld_mm pipe_sizes K1_base
        weld_beads_2d rng b })
  { inlet_pressure_mpa := inlet_pressure_mpa
    total_flow_lpm := total_flow_lpm
    num_branches := num_branches
    heads_per_branch := heads_per_branch
    branch_spacing_m := branch_spacing_m
    head_spacing_m := head_spacing_m
    cross_main_size := cross_main_size
    cross_main_segments := cross_main_segments
    branches := branches
    bead_heights := bead_heights
    beads_per_branch := beads_per_branch }

/-- `generate_dynamic_system`: Step 1 validation (raising
`ValidationError` before anything is built), then the builder. -/
def generate_dynamic_system (num_branches heads_per_branch : ℤ)
    (branch_spacing_m head_spacing_m inlet_pressure_mpa total_flow_lpm : ℚ)
    (bead_heights_2d : Option (List (List ℚ))) (K1_base K2_val : ℚ)
    (beads_per_branch : ℕ) (bead_height_for_weld_mm : ℚ)
    (weld_beads_2d : Option (List (List WeldBead)))
    (rng : Option (List (List ℚ))) : Except ValidationError DynamicSystem := do
  _ ← validate_dynamic_inputs num_branches heads_per_branch
    branch_spacing_m head_spacing_m inlet_pressure_mpa total_flow_lpm
  pure (build_dynamic_system num_branches.toNat heads_per_branch.toNat
    branch_spacing_m head_spacing_m inlet_pressure_mpa total_flow_lpm
    bead_heights_2d K1_base K2_val beads_per_branch bead_height_for_weld_mm
    weld_beads_2d rng)

/-! ## pipe_network.py — pressure walk -/

/-- The shared imperative walk `current_p -= loss; current_loss += loss;
append both`, one output pair per element. -/
def loss_walk {α : Type} (lossAt : α → ℚ) : List α → ℚ → ℚ → List (ℚ × ℚ)
  | [], _, _ => []
  | x :: rest, p, loss =>
    let l := lossAt x
    (p - l, loss + l) :: loss_walk lossAt rest (p - l) (loss + l)

/-- Per-head loss of the tree branch walk (the body of the
`for i, junc in enumerate(branch.junctions)` loop of
`_calculate_branch_profile`): major + K1 + K2 + matching weld beads, at
the post-discharge segment flow `total − i·head_flow`. -/
def tree_seg_loss (fops : FloatOps) (weld_beads : List WeldBead)
    (total_flow head_flow : ℚ) (x : ℕ × HeadJunction) : ℚ :=
  let i := x.1
  let junc := x.2
  let seg := junc.pipe_segment
  let segment_flow := total_flow - i * head_flow
  let V := velocity_from_flow fops segment_flow seg.inner_diameter_m
  let Re := reynolds_number V seg.inner_diameter_m NU
  let f := friction_factor fops Re EPSILON_M seg.inner_diameter_m
  let p_major := head_to_mpa (major_loss f seg.length_m seg.inner_diameter_m V)
  let p_K1 := head_to_mpa (minor_loss junc.K1_welded V)
  let p_K2 := head_to_mpa (minor_loss junc.K2_head V)
  let p_weld := ((weld_beads.filter (fun b => b.segment_index = i)).map
    (fun b => head_to_mpa (minor_loss b.K_value V))).sum
  p_major + p_K1 + p_K2 + p_weld

/-- The profile record returned by the branch-profile computations
(`positions`, `pressures_mpa`, `cumulative_loss_mpa`,
`terminal_pressure_mpa`, `K3_loss_mpa`; the display-rounded
`segment_details` rows are not modelled). -/
structure BranchProfile where
  positions : List ℕ
  pressures_mpa : List ℚ
  cumulative_loss_mpa : List ℚ
  terminal_pressure_mpa : ℚ
  K3_loss_mpa : ℚ
deriving DecidableEq, Repr

/-- `_calculate_branch_profile`: K3 entry loss at branch-inlet velocity,
then the head-by-head walk.  `junctions[0]` on an empty junction list
(impossible for generated systems, whose head count is validated `≥ 1`)
is modelled with `headD`. -/
def calculate_branch_profile (fops : FloatOps) (branch : BranchPipe)
    (branch_inlet_pressure_mpa K3_val : ℚ) : BranchProfile :=
  let n := branch.num_heads
  let total_flow := branch.branch_flow_lpm
  let head_flow := total_flow / n
  let first_seg := (branch.junctions.headD default).pipe_segment
  let V_inlet := velocity_from_flow fops total_flow first_seg.inner_diameter_m
  let K3_loss := head_to_mpa (minor_loss K3_val V_inlet)
  let steps := loss_walk (tree_seg_loss fops branch.weld_beads total_flow head_flow)
    branch.junctions.enum (branch_inlet_pressure_mpa - K3_loss) K3_loss
  let pressures := branch_inlet_pressure_mpa :: steps.map Prod.fst
  { positions := List.range (n + 1)
    pressures_mpa := pressures
    cumulative_loss_mpa := 0 :: steps.map Prod.snd
    terminal_pressure_mpa := pressures.getLast (List.cons_ne_nil _ _)
    K3_loss_mpa := K3_loss }

/-- First index of the minimum
(`min(range(n), key=lambda i: xs[i])`). -/
def idx_of_min (l : List ℚ) : ℕ :=
  (l.enum.foldl (fun acc x => if x.2 < acc.2 then x else acc) (0, l.headD 0)).1

/-- Cross-main segment loss at branch tap `i` of
`calculate_dynamic_system`: zero for the first tap, else Darcy major
loss plus tee-run minor loss at the remaining flow. -/
def cm_seg_loss (fops : FloatOps) (system : DynamicSystem) (i : ℕ) : ℚ :=
  if i > 0 then
    let branch_flow := system.total_flow_lpm / system.num_branches
    let remaining_flow := system.total_flow_lpm - i * branch_flow
    let cross_main_id_m := get_inner_diameter_m system.cross_main_size
    let V_cm := velocity_from_flow fops remaining_flow cross_main_id_m
    let Re_cm := reynolds_number V_cm cross_main_id_m NU
    let f_cm := friction_factor fops Re_cm EPSILON_M cross_main_id_m
    head_to_mpa (major_loss f_cm system.branch_spacing_m cross_main_id_m V_cm)
      + head_to_mpa (minor_loss K_TEE_RUN V_cm)
  else 0

/-- Result record of `calculate_dynamic_system` (the Python dict,
minus the display-only detail rows carried inside the profiles). -/
structure SystemResult where
  branch_inlet_pressures : List ℚ
  branch_profiles : List BranchProfile
  cross_main_losses : List ℚ
  cross_main_cumulative : ℚ
  worst_branch_index : ℕ
  worst_terminal_mpa : ℚ
  all_terminal_pressures : List ℚ
  total_heads : ℕ
  cross_main_size : PipeSize
deriving DecidableEq, Repr

/-- `calculate_dynamic_system`: cross-main walk to every tap, then each
branch profile, then the explicit minimum scan for the worst branch. -/
def calculate_dynamic_system (fops : FloatOps) (system : DynamicSystem)
    (K3_val : ℚ) : SystemResult :=
  let n_branches := system.num_branches
  let cm_steps := loss_walk (cm_seg_loss fops system) (List.range n_branches)
    system.inlet_pressure_mpa 0
  let branch_inlet_pressures := cm_steps.map Prod.fst
  let cross_main_losses := (List.range n_branches).map (cm_seg_loss fops system)
  let branch_profiles := (List.range n_branches).map (fun b =>
    calculate_branch_profile fops (system.branches.getD b default)
      (branch_inlet_pressures.getD b 0) K3_val)
  let all_terminal_pressures := branch_profiles.map (·.terminal_pressure_mpa)
  let worst_idx := idx_of_min all_terminal_pressures
  { branch_inlet_pressures := branch_inlet_pressures
    branch_profiles := branch_profiles
    cross_main_losses := cross_main_losses
    cross_main_cumulative := cross_main_losses.sum
    worst_branch_index := worst_idx
    worst_terminal_mpa := all_terminal_pressures.getD worst_idx 0
    all_terminal_pressures := all_terminal_pressures
    total_heads := system.num_branches * system.heads_per_branch
    cross_main_size := system.cross_main_size }

/-! ## hardy_cross.py — grid data model and generator -/

/-- `GridNode`. -/
structure GridNode where
  id : ℕ
  row : ℕ
  col : ℕ
  demand_lpm : ℚ
  is_inlet : Bool
deriving DecidableEq, Repr

instance : Inhabited GridNode := ⟨⟨0, 0, 0, 0, false⟩⟩

/-- The `pipe_type` strings `"cm_top"`, `"cm_bot"`, `"branch"`,
`"connector"`. -/
inductive GridPipeType where
  | cm_top | cm_bot | branch | connector
deriving DecidableEq, Repr

/-- `GridPipe`.  `flow_lpm` is the one mutable field of the source; the
solver below threads it as explicit state (a list of flows indexed by
pipe id) and `set_flows` writes a flow state back into the pipes. -/
structure GridPipe where
  id : ℕ
  start_node_id : ℕ
  end_node_id : ℕ
  pipe_type : GridPipeType
  nominal_size : PipeSize
  inner_diameter_m : ℚ
  length_m : ℚ
  flow_lpm : ℚ
  branch_index : ℤ
  junctions : List HeadJunction
  weld_beads : List WeldBead
  heads_per_branch : ℕ
deriving DecidableEq, Repr

instance : Inhabited GridPipe :=
  ⟨⟨0, 0, 0, .connector, .s25A, 0, 0, 0, -1, [], [], 0⟩⟩

/-- `GridLoop`: pipe ids with `±1` traversal direction flags. -/
structure GridLoop where
  index : ℕ
  pipe_ids : List ℕ
  directions : List ℤ
deriving DecidableEq, Repr

/-- `GridNetwork`. -/
structure GridNetwork where
  nodes : List GridNode
  pipes : List GridPipe
  loops : List GridLoop
  inlet_node_id : ℕ
  inlet_pressure_mpa : ℚ
  total_flow_lpm : ℚ
  num_branches : ℕ
  heads_per_branch : ℕ
  branch_spacing_m : ℚ
  head_spacing_m : ℚ
  cross_main_size : PipeSize
  beads_per_branch : ℕ
deriving DecidableEq, Repr

/-- `_node_id(row, col, n_cols) = row·n_cols + col`. -/
def node_id (row col n_cols : ℕ) : ℕ := row * n_cols + col

/-- Write a flow state back into the pipes (the effect of the source's
in-place `pipes[pid].flow_lpm` mutations, pipe ids being list
positions). -/
def set_flows (network : GridNetwork) (flows : List ℚ) : GridNetwork :=
  let pipes1 := network.pipes.zipWith (fun p f => { p with flow_lpm := f }) flows
  { network with pipes := pipes1 }

/-- `_initialize_grid_flows`: the symmetric initial flow split.  Pipe
ids are positions: `0 ≤ id < n` cross-main TOP segment `id`,
`n ≤ id < 2n` cross-main BOT segment `id − n`, `2n ≤ id < 3n` branch
`id − 2n`, `3n` left connector, `3n+1` right connector — exactly the
creation order of the generator below. -/
def initialize_grid_flows (pipes : List GridPipe) (num_branches : ℕ)
    (branch_flow total_flow_lpm : ℚ) : List GridPipe :=
  let n := num_branches
  let half_flow := total_flow_lpm / 2
  let top_supply := total_flow_lpm - half_flow
  pipes.map (fun p =>
    let f :=
      if p.id < n then top_supply - (p.id : ℚ) * branch_flow
      else if p.id < 2 * n then half_flow - ((p.id - n : ℕ) : ℚ) * branch_flow
      else if p.id < 3 * n then branch_flow
      else if p.id = 3 * n then half_flow
      else 0
    { p with flow_lpm := f })

/-- The body of `generate_grid_network` after validation (Steps 2–5):
`2·(n+1)` nodes, `3n+2` pipes in creation order (TOP segments, BOT
segments, branches, left connector, right connector), the `n` loops
(left outer, `n−2` inner rectangles, right outer when `n ≥ 2`), then the
symmetric initial flows. -/
def build_grid_network (num_branches heads_per_branch : ℕ)
    (branch_spacing_m head_spacing_m inlet_pressure_mpa total_flow_lpm : ℚ)
    (bead_heights_2d : Option (List (List ℚ))) (K1_base K2_val : ℚ)
    (beads_per_branch : ℕ) (bead_height_for_weld_mm : ℚ)
    (weld_beads_2d : Option (List (List WeldBead)))
    (rng : Option (List (List ℚ))) : GridNetwork :=
  let n := num_branches
  let m := heads_per_branch
  let bead_heights := bead_heights_2d.getD
    (List.replicate n (List.replicate m 0))
  let total_heads : ℤ := (n : ℤ) * m
  let cross_main_size := auto_cross_main_size total_heads
  let cross_main_id_m := get_inner_diameter_m cross_main_size
  let n_cols := n + 1
  let nodes : List GridNode := (List.range 2).flatMap (fun row =>
    (List.range n_cols).map (fun col =>
      { id := node_id row col n_cols
        row := row
        col := col
        demand_lpm := 0
        is_inlet := decide (row = 0 ∧ col = 0) }))
  let branch_flow := total_flow_lpm / n
  let head_flow := branch_flow / m
  let pipe_sizes := build_pipe_sizes m
  let cm_top : List GridPipe := (List.range n).map (fun i =>
    { id := i
      start_node_id := node_id 0 i n_cols
      end_node_id := node_id 0 (i + 1) n_cols
      pipe_type := .cm_top
      nominal_size := cross_main_size
      inner_diameter_m := cross_main_id_m
      length_m := branch_spacing_m
      flow_lpm := 0
      branch_index := -1
      junctions := []
      weld_beads := []
      heads_per_branch := 0 })
  let cm_bot : List GridPipe := (List.range n).map (fun i =>
    { id := n + i
      start_node_id := node_id 1 i n_cols
      end_node_id := node_id 1 (i + 1) n_cols
      pipe_type := .cm_bot
      nominal_size := cross_main_size
      inner_diameter_m := cross_main_id_m
      length_m := branch_spacing_m
      flow_lpm := 0
      branch_index := -1
      junctions := []
      weld_beads := []
      heads_per_branch := 0 })
  let branch_pipes : List GridPipe := (List.range n).map (fun b =>
    let col := b + 1
    { id := 2 * n + b
      start_node_id := node_id 0 col n_cols
      end_node_id := node_id 1 col n_cols
      pipe_type := .branch
      nominal_size := pipe_sizes.headD .s25A
      inner_diameter_m := get_inner_diameter_m (pipe_sizes.headD .s25A)
      length_m := m * head_spacing_m
      flow_lpm := 0
      branch_index := (b : ℤ)
      junctions := build_junctions m head_spacing_m (bead_heights.getD b [])
        K1_base K2_val head_flow
      weld_beads := build_branch_beads m head_spacing_m beads_per_branch
        bead_height_for_weld_mm pipe_sizes K1_base weld_beads_2d rng b
      heads_per_branch := m })
  let left_conn : GridPipe :=
    { id := 3 * n
      start_node_id := node_id 0 0 n_cols
      end_node_id := node_id 1 0 n_cols
      pipe_type := .connector
      nominal_size := cross_main_size
      inner_diameter_m := cross_main_id_m
      length_m := head_spacing_m
      flow_lpm := 0
      branch_index := -1
      junctions := []
      weld_beads := []
      heads_per_branch := 0 }
  let right_conn : GridPipe :=
    { left_conn with
      id := 3 * n + 1
      start_node_id := node_id 0 n n_cols
      end_node_id := node_id 1 n n_cols }
  let pipes := cm_top ++ cm_bot ++ branch_pipes ++ [left_conn, right_conn]
  let loop0 : GridLoop :=
    { index := 0
      pipe_ids := [0, 2 * n, n, 3 * n]
      directions := [1, 1, -1, -1] }
  let inner_loops : List GridLoop := (List.range' 1 (n - 2)).map (fun i =>
    { index := i
      pipe_ids := [i, 2 * n + i, n + i, 2 * n + i - 1]
      directions := [1, 1, -1, -1] })
  let right_loop : List GridLoop :=
    if 2 ≤ n then
      [{ index := n - 1
         pipe_ids := [n - 1, 3 * n + 1, 2 * n - 1, 3 * n - 1]
         directions := [1, 1, -1, -1] }]
    else []
  let loops := loop0 :: inner_loops ++ right_loop
  { nodes := nodes
    pipes := initialize_grid_flows pipes n branch_flow total_flow_lpm
    loops := loops
    inlet_node_id := node_id 0 0 n_cols
    inlet_pressure_mpa := inlet_pressure_mpa
    total_flow_lpm := total_flow_lpm
    num_branches := n
    heads_per_branch := m
    branch_spacing_m := branch_spacing_m
    head_spacing_m := head_spacing_m
    cross_main_size := cross_main_size
    beads_per_branch := beads_per_branch }

/-- `generate_grid_network`: Step 1 validation, then the builder. -/
def generate_grid_network (num_branches heads_per_branch : ℤ)
    (branch_spacing_m head_spacing_m inlet_pressure_mpa total_flow_lpm : ℚ)
    (bead_heights_2d : Option (List (List ℚ))) (K1_base K2_val : ℚ)
    (beads_per_branch : ℕ) (bead_height_for_weld_mm : ℚ)
    (weld_beads_2d : Option (List (List WeldBead)))
    (rng : Option (List (List ℚ))) : Except ValidationError GridNetwork := do
  _ ← validate_dynamic_inputs num_branches heads_per_branch
    branch_spacing_m head_spacing_m inlet_pressure_mpa total_flow_lpm
  pure (build_grid_network num_branches.toNat heads_per_branch.toNat
    branch_spacing_m head_spacing_m inlet_pressure_mpa total_flow_lpm
    bead_heights_2d K1_base K2_val beads_per_branch bead_height_for_weld_mm
    weld_beads_2d rng)

/-! ## hardy_cross.py — per-pipe head loss -/

/-- One head segment of `_branch_total_head_loss` (in metres of head):
skipped (`continue`) when the post-discharge segment flow drops below
0.01 LPM. -/
def grid_branch_seg_head_loss (fops : FloatOps) (weld_beads : List WeldBead)
    (Q_total head_flow : ℚ) (x : ℕ × HeadJunction) : ℚ :=
  let i := x.1
  let junc := x.2
  let seg := junc.pipe_segment
  let seg_flow := Q_total - i * head_flow
  if seg_flow < 1 / 100 then 0
  else
    let V := velocity_from_flow fops seg_flow seg.inner_diameter_m
    let Re := reynolds_number V seg.inner_diameter_m NU
    let f := friction_factor fops Re EPSILON_M seg.inner_diameter_m
    let h_major := major_loss f seg.length_m seg.inner_diameter_m V
    let h_K1 := minor_loss junc.K1_welded V
    let h_K2 := minor_loss junc.K2_head V
    let h_weld := ((weld_beads.filter (fun b => b.segment_index = i)).map
      (fun b => minor_loss b.K_value V)).sum
    h_major + h_K1 + h_K2 + h_weld

/-- `_branch_total_head_loss`: K3 entry loss plus every head segment, in
metres, at the branch's current total flow; `0` below 0.01 LPM or with
no heads.  (`K1_base` is a parameter of the source function but its
body only reads the stored per-junction `K1_welded`.) -/
def branch_total_head_loss (fops : FloatOps) (pipe : GridPipe)
    (Q_total_lpm _K1_base K3_val : ℚ) : ℚ :=
  if Q_total_lpm < 1 / 100 ∨ pipe.heads_per_branch = 0 then 0
  else
    let m := pipe.heads_per_branch
    let head_flow := Q_total_lpm / m
    let first_junc := pipe.junctions.headD default
    let V_inlet := velocity_from_flow fops Q_total_lpm
      first_junc.pipe_segment.inner_diameter_m
    minor_loss K3_val V_inlet
      + (pipe.junctions.enum.map
          (grid_branch_seg_head_loss fops pipe.weld_beads Q_total_lpm head_flow)).sum

/-- `_pipe_head_loss`: total head loss (m) of one pipe at `|Q|`;
`0` below 0.01 LPM; typed dispatch (cross-mains: major + tee-run,
connectors: major only, branches: full branch loss). -/
def pipe_head_loss (fops : FloatOps) (pipe : GridPipe)
    (Q_abs_lpm K1_base K3_val : ℚ) : ℚ :=
  if Q_abs_lpm < 1 / 100 then 0
  else
    let D := pipe.inner_diameter_m
    match pipe.pipe_type with
    | .cm_top | .cm_bot =>
      let V := velocity_from_flow fops Q_abs_lpm D
      let Re := reynolds_number V D NU
      let f := friction_factor fops Re EPSILON_M D
      major_loss f pipe.length_m D V + minor_loss K_TEE_RUN V
    | .connector =>
      let V := velocity_from_flow fops Q_abs_lpm D
      let Re := reynolds_number V D NU
      let f := friction_factor fops Re EPSILON_M D
      major_loss f pipe.length_m D V
    | .branch => branch_total_head_loss fops pipe Q_abs_lpm K1_base K3_val

/-! ## hardy_cross.py — Hardy-Cross solver -/

/-- Result record of `solve_hardy_cross`.  `none` in
`max_imbalance_m` / `max_delta_Q_lpm` models the `float('inf')`
initial value (observable only when `max_iterations = 0`).  `flows` is
the final flow state the source leaves in `network.pipes`. -/
structure HCResult where
  converged : Bool
  iterations : ℕ
  max_imbalance_m : Option ℚ
  max_delta_Q_lpm : Option ℚ
  diverged : Bool
  imbalance_history : List ℚ
  delta_Q_history : List ℚ
  flows : List ℚ
deriving DecidableEq, Repr

/-- Assemble an `HCResult`; `converged` is the source's final
`final_imbalance < tolerance_m` (false while still infinite). -/
def mk_hc_result (tolerance_m : ℚ) (iterations : ℕ) (imb dq : Option ℚ)
    (diverged : Bool) (hist dhist flows : List ℚ) : HCResult :=
  { converged := match imb with
      | none => false
      | some v => decide (v < tolerance_m)
    iterations := iterations
    max_imbalance_m := imb
    max_delta_Q_lpm := dq
    diverged := diverged
    imbalance_history := hist
    delta_Q_history := dhist
    flows := flows }

/-- One loop of one Hardy-Cross iteration: signed head-loss sum,
`∂h/∂Q` sum, the under-relaxed correction, and its application to every
pipe of the loop.  Returns the updated flows, `|Σh_f|` and `|ΔQ|`. -/
def loop_correction (fops : FloatOps) (K1_base K3_val relaxation : ℚ)
    (pipes : List GridPipe) (flows : List ℚ) (loop : GridLoop) :
    List ℚ × ℚ × ℚ :=
  let pairs := loop.pipe_ids.zip loop.directions
  let sums : ℚ × ℚ := pairs.foldl (fun acc pd =>
    let pipe := pipes.getD pd.1 default
    let Q := flows.getD pd.1 0
    let Q_signed := Q * (pd.2 : ℚ)
    let Q_abs := |Q|
    let h := pipe_head_loss fops pipe Q_abs K1_base K3_val
    let sum_hf := if 0 ≤ Q_signed then acc.1 + h else acc.1 - h
    let sum_dhf := if 1 / 100 < Q_abs then acc.2 + 2 * h / Q_abs else acc.2
    (sum_hf, sum_dhf)) (0, 0)
  let delta_Q := if 1 / 10 ^ 10 < sums.2 then -sums.1 / sums.2 * relaxation else 0
  let flows1 := pairs.foldl (fun fl pd =>
    fl.set pd.1 (fl.getD pd.1 0 + delta_Q * (pd.2 : ℚ))) flows
  (flows1, |sums.1|, |delta_Q|)

/-- One full Hardy-Cross iteration (`for loop in network.loops`),
sequential over loops, tracking the maxima of `|Σh_f|` and `|ΔQ|`. -/
def hc_iteration (fops : FloatOps) (K1_base K3_val relaxation : ℚ)
    (pipes : List GridPipe) (loops : List GridLoop) (flows : List ℚ) :
    List ℚ × ℚ × ℚ :=
  loops.foldl (fun acc loop =>
    let r := loop_correction fops K1_base K3_val relaxation pipes acc.1 loop
    (r.1, max acc.2.1 r.2.1, max acc.2.2 r.2.2)) (flows, 0, 0)

/-- The `for iteration in range(max_iterations)` loop of
`solve_hardy_cross`, with the remaining iteration count as fuel.
State: flows, previous iteration's max imbalance (`none` = initial
`inf`), divergence counter, iterations used, both histories, last
recorded maxima.  Mirrors the source's order: histories, divergence
guard (abort on the third consecutive >1% increase), `prev` update,
dual-criterion convergence break. -/
def hc_run (fops : FloatOps) (K1_base K3_val relaxation tolerance_m tolerance_lpm : ℚ)
    (pipes : List GridPipe) (loops : List GridLoop) :
    ℕ → List ℚ → Option ℚ → ℕ → ℕ → List ℚ → List ℚ → Option ℚ → Option ℚ → HCResult
  | 0, flows, _, _, used, hist, dhist, lastImb, lastDQ =>
    mk_hc_result tolerance_m used lastImb lastDQ false hist dhist flows
  | Nat.succ fuel, flows, prev, dcount, used, hist, dhist, _, _ =>
    let r := hc_iteration fops K1_base K3_val relaxation pipes loops flows
    let flows1 := r.1
    let imb := r.2.1
    let dq := r.2.2
    let used1 := used + 1
    let hist1 := hist ++ [imb]
    let dhist1 := dhist ++ [dq]
    let incr : Bool := match prev with
      | none => false
      | some p => decide (p * (101 / 100) < imb)
    if incr = true then
      if 3 ≤ dcount + 1 then
        mk_hc_result tolerance_m used1 (some imb) (some dq) true hist1 dhist1 flows1
      else if imb < tolerance_m ∧ dq < tolerance_lpm then
        mk_hc_result tolerance_m used1 (some imb) (some dq) false hist1 dhist1 flows1
      else
        hc_run fops K1_base K3_val relaxation tolerance_m tolerance_lpm pipes loops
          fuel flows1 (some imb) (dcount + 1) used1 hist1 dhist1 (some imb) (some dq)
    else if imb < tolerance_m ∧ dq < tolerance_lpm then
      mk_hc_result tolerance_m used1 (some imb) (some dq) false hist1 dhist1 flows1
    else
      hc_run fops K1_base K3_val relaxation tolerance_m tolerance_lpm pipes loops
        fuel flows1 (some imb) 0 used1 hist1 dhist1 (some imb) (some dq)

/-- `solve_hardy_cross`: run the iteration from the network's seeded
flows. -/
def solve_hardy_cross (fops : FloatOps) (network : GridNetwork)
    (K1_base K3_val : ℚ) (max_iterations : ℕ)
    (tolerance_m tolerance_lpm relaxation : ℚ) : HCResult :=
  hc_run fops K1_base K3_val relaxation tolerance_m tolerance_lpm
    network.pipes network.loops max_iterations
    (network.pipes.map (·.flow_lpm)) none 0 0 [] [] none none

/-! ## hardy_cross.py — pressure derivation and one-step interface -/

/-- The adjacency list of one node (`node_adj`): `(pipe id, +1)` for
pipes starting there, `(pipe id, −1)` for pipes ending there, in pipe
order. -/
def node_adj (pipes : List GridPipe) (nid : ℕ) : List (ℕ × ℤ) :=
  pipes.filterMap (fun p =>
    if p.start_node_id = nid then some (p.id, 1)
    else if p.end_node_id = nid then some (p.id, -1)
    else none)

/-- Visiting all neighbours of the current BFS node: skip visited ones,
else propagate pressure across the pipe (drop along the flow direction,
rise against it) and enqueue.  State: pressure table, visited list,
queue additions. -/
def bfs_visit (fops : FloatOps) (K1_base K3_val : ℚ) (pipes : List GridPipe)
    (current_p : ℚ) (adj : List (ℕ × ℤ))
    (st : List (ℕ × ℚ) × List ℕ × List ℕ) : List (ℕ × ℚ) × List ℕ × List ℕ :=
  adj.foldl (fun st pd =>
    let pipe := pipes.getD pd.1 default
    let neighbor := if pd.2 = 1 then pipe.end_node_id else pipe.start_node_id
    if neighbor ∈ st.2.1 then st
    else
      let Q_abs := |pipe.flow_lpm|
      let h_loss := pipe_head_loss fops pipe Q_abs K1_base K3_val
      let p_loss := head_to_mpa h_loss
      let flow_sign : ℤ := if 0 ≤ pipe.flow_lpm then 1 else -1
      let neighbor_p := if 0 < flow_sign * pd.2 then current_p - p_loss
        else current_p + p_loss
      ((neighbor, neighbor_p) :: st.1, neighbor :: st.2.1, st.2.2 ++ [neighbor])) st

/-- The BFS `while queue` loop, fuelled (each step pops one node; nodes
are enqueued at most once, so `|nodes| + 1` fuel always suffices). -/
def bfs_loop (fops : FloatOps) (K1_base K3_val : ℚ) (pipes : List GridPipe) :
    ℕ → List ℕ → List (ℕ × ℚ) → List ℕ → List (ℕ × ℚ)
  | 0, _, pressures, _ => pressures
  | Nat.succ _, [], pressures, _ => pressures
  | Nat.succ fuel, current :: rest, pressures, visited =>
    let current_p := (pressures.lookup current).getD 0
    let st := bfs_visit fops K1_base K3_val pipes current_p
      (node_adj pipes current) (pressures, visited, [])
    bfs_loop fops K1_base K3_val pipes fuel (rest ++ st.2.2) st.1 st.2.1

/-- Steps 1–2 of `calculate_grid_pressures`: node pressures by BFS from
the inlet. -/
def grid_node_pressures (fops : FloatOps) (K1_base K3_val : ℚ)
    (network : GridNetwork) : List (ℕ × ℚ) :=
  bfs_loop fops K1_base K3_val network.pipes (network.nodes.length + 1)
    [network.inlet_node_id] [(network.inlet_node_id, network.inlet_pressure_mpa)]
    [network.inlet_node_id]

/-- One head segment of `_calculate_grid_branch_profile` (in MPa): the
post-discharge segment flow is clamped up to 0.01 LPM (unlike the tree
walk, which never clamps). -/
def grid_profile_seg_loss (fops : FloatOps) (weld_beads : List WeldBead)
    (Q_total head_flow : ℚ) (x : ℕ × HeadJunction) : ℚ :=
  let i := x.1
  let junc := x.2
  let seg := junc.pipe_segment
  let seg_flow0 := Q_total - i * head_flow
  let seg_flow := if seg_flow0 < 1 / 100 then 1 / 100 else seg_flow0
  let V := velocity_from_flow fops seg_flow seg.inner_diameter_m
  let Re := reynolds_number V seg.inner_diameter_m NU
  let f := friction_factor fops Re EPSILON_M seg.inner_diameter_m
  let p_major := head_to_mpa (major_loss f seg.length_m seg.inner_diameter_m V)
  let p_K1 := head_to_mpa (minor_loss junc.K1_welded V)
  let p_K2 := head_to_mpa (minor_loss junc.K2_head V)
  let p_weld := ((weld_beads.filter (fun b => b.segment_index = i)).map
    (fun b => head_to_mpa (minor_loss b.K_value V))).sum
  p_major + p_K1 + p_K2 + p_weld

/-- `_calculate_grid_branch_profile`: the degenerate early return
(no heads, or branch flow below 0.01 LPM) yields single-entry lists;
otherwise the same K3-entry-plus-walk shape as the tree profile, at the
Hardy-Cross branch flow. -/
def calculate_grid_branch_profile (fops : FloatOps) (pipe : GridPipe)
    (branch_inlet_pressure_mpa Q_total_lpm K3_val : ℚ) : BranchProfile :=
  if pipe.heads_per_branch = 0 ∨ Q_total_lpm < 1 / 100 then
    { positions := [0]
      pressures_mpa := [branch_inlet_pressure_mpa]
      cumulative_loss_mpa := [0]
      terminal_pressure_mpa := branch_inlet_pressure_mpa
      K3_loss_mpa := 0 }
  else
    let m := pipe.heads_per_branch
    let head_flow := Q_total_lpm / m
    let first_seg := (pipe.junctions.headD default).pipe_segment
    let V_inlet := velocity_from_flow fops Q_total_lpm first_seg.inner_diameter_m
    let K3_loss := head_to_mpa (minor_loss K3_val V_inlet)
    let steps := loss_walk
      (grid_profile_seg_loss fops pipe.weld_beads Q_total_lpm head_flow)
      pipe.junctions.enum (branch_inlet_pressure_mpa - K3_loss) K3_loss
    let pressures := branch_inlet_pressure_mpa :: steps.map Prod.fst
    { positions := List.range (m + 1)
      pressures_mpa := pressures
      cumulative_loss_mpa := 0 :: steps.map Prod.snd
      terminal_pressure_mpa := pressures.getLast (List.cons_ne_nil _ _)
      K3_loss_mpa := K3_loss }

/-- `inflow` and `outflow` of one node as accumulated by both
`_verify_kirchhoff` and the `node_data` loop of
`calculate_grid_pressures`: signed pipe flows split by direction, the
inlet node credited with the external supply. -/
def node_inflow_outflow (pipes : List GridPipe) (total_flow_lpm : ℚ)
    (node : GridNode) : ℚ × ℚ :=
  let base : ℚ × ℚ := (if node.is_inlet then total_flow_lpm else 0, 0)
  pipes.foldl (fun acc p =>
    if p.start_node_id = node.id then
      if 0 ≤ p.flow_lpm then (acc.1, acc.2 + p.flow_lpm)
      else (acc.1 + |p.flow_lpm|, acc.2)
    else if p.end_node_id = node.id then
      if 0 ≤ p.flow_lpm then (acc.1 + p.flow_lpm, acc.2)
      else (acc.1, acc.2 + |p.flow_lpm|)
    else acc) base

/-- `balance_lpm` of one node: `inflow − outflow`. -/
def node_balance (pipes : List GridPipe) (total_flow_lpm : ℚ)
    (node : GridNode) : ℚ :=
  let io := node_inflow_outflow pipes total_flow_lpm node
  io.1 - io.2

/-- One row of the `node_data` table (numeric fields unrounded; the
display label string is represented by `row`/`col`). -/
structure NodeData where
  node_id : ℕ
  row : ℕ
  col : ℕ
  is_inlet : Bool
  demand_lpm : ℚ
  inflow_lpm : ℚ
  outflow_lpm : ℚ
  balance_lpm : ℚ
  pressure_mpa : ℚ
deriving DecidableEq, Repr

/-- Result record of `calculate_grid_pressures` (the tree result fields
plus the grid-only ones; the Hardy-Cross diagnostic fields copied from
`hc_result` are carried as the optional record itself). -/
structure GridResult where
  branch_inlet_pressures : List ℚ
  branch_profiles : List BranchProfile
  cross_main_losses : List ℚ
  cross_main_cumulative : ℚ
  worst_branch_index : ℕ
  worst_terminal_mpa : ℚ
  all_terminal_pressures : List ℚ
  total_heads : ℕ
  cross_main_size : PipeSize
  node_data : List NodeData
  hc_result : Option HCResult
deriving DecidableEq, Repr

/-- `calculate_grid_pressures`: BFS node pressures, per-branch profiles
entered from the TOP node (BOT when the converged branch flow is
negative), cross-main reference losses, explicit worst-branch scan, and
the per-node flow table. -/
def calculate_grid_pressures (fops : FloatOps) (network : GridNetwork)
    (K1_base K3_val : ℚ) (hc_result : Option HCResult) : GridResult :=
  let pipes := network.pipes
  let n_branches := network.num_branches
  let n_cols := n_branches + 1
  let node_pressures := grid_node_pressures fops K1_base K3_val network
  let branch_rows : List (ℚ × BranchProfile) :=
    (List.range n_branches).filterMap (fun (b : ℕ) =>
      let col := b + 1
      let top_p := (node_pressures.lookup (node_id 0 col n_cols)).getD
        network.inlet_pressure_mpa
      let bot_p := (node_pressures.lookup (node_id 1 col n_cols)).getD
        network.inlet_pressure_mpa
      match pipes.find? (fun p =>
          p.pipe_type = .branch ∧ p.branch_index = (b : ℤ)) with
      | none => none
      | some branch_pipe =>
        let Q_branch := branch_pipe.flow_lpm
        let inlet_p := if 0 ≤ Q_branch then top_p else bot_p
        some (inlet_p,
          calculate_grid_branch_profile fops branch_pipe inlet_p |Q_branch| K3_val))
  let branch_inlet_pressures := branch_rows.map Prod.fst
  let branch_profiles := branch_rows.map Prod.snd
  let all_terminal_pressures := branch_profiles.map (·.terminal_pressure_mpa)
  let cross_main_losses := (List.range n_branches).map (fun i =>
    if i = 0 then 0
    else
      let p_prev := (node_pressures.lookup (node_id 0 i n_cols)).getD 0
      let p_curr := (node_pressures.lookup (node_id 0 (i + 1) n_cols)).getD 0
      |p_prev - p_curr|)
  let worst_idx := if all_terminal_pressures.isEmpty then 0
    else idx_of_min all_terminal_pressures
  let worst_terminal := if all_terminal_pressures.isEmpty then 0
    else all_terminal_pressures.getD worst_idx 0
  let node_data := network.nodes.map (fun node =>
    let io := node_inflow_outflow pipes network.total_flow_lpm node
    { node_id := node.id
      row := node.row
      col := node.col
      is_inlet := node.is_inlet
      demand_lpm := node.demand_lpm
      inflow_lpm := io.1
      outflow_lpm := io.2
      balance_lpm := io.1 - io.2
      pressure_mpa := (node_pressures.lookup node.id).getD 0 : NodeData })
  { branch_inlet_pressures := branch_inlet_pressures
    branch_profiles := branch_profiles
    cross_main_losses := cross_main_losses
    cross_main_cumulative := cross_main_losses.sum
    worst_branch_index := worst_idx
    worst_terminal_mpa := worst_terminal
    all_terminal_pressures := all_terminal_pressures
    total_heads := network.num_branches * network.heads_per_branch
    cross_main_size := network.cross_main_size
    node_data := node_data
    hc_result := hc_result }

/-- `run_grid_system`: generate (validation may raise), solve
Hardy-Cross at the default iteration cap and tolerances, write the
final flows back into the pipes, derive pressures. -/
def run_grid_system (fops : FloatOps) (num_branches heads_per_branch : ℤ)
    (branch_spacing_m head_spacing_m inlet_pressure_mpa total_flow_lpm : ℚ)
    (bead_heights_2d : Option (List (List ℚ))) (K1_base K2_val K3_val : ℚ)
    (beads_per_branch : ℕ) (bead_height_for_weld_mm : ℚ)
    (weld_beads_2d : Option (List (List WeldBead)))
    (rng : Option (List (List ℚ))) (relaxation : ℚ) :
    Except ValidationError GridResult := do
  let network ← generate_grid_network num_branches heads_per_branch
    branch_spacing_m head_spacing_m inlet_pressure_mpa total_flow_lpm
    bead_heights_2d K1_base K2_val beads_per_branch bead_height_for_weld_mm
    weld_beads_2d rng
  let hc := solve_hardy_cross fops network K1_base K3_val HC_MAX_ITERATIONS
    HC_TOLERANCE_M HC_TOLERANCE_LPM relaxation
  pure (calculate_grid_pressures fops (set_flows network hc.flows)
    K1_base K3_val (some hc))

/-! ## Shared fixtures and the unified solve interface -/

instance : Inhabited BranchProfile := ⟨⟨[], [], [], 0, 0⟩⟩

/-- A degenerate `FloatOps` valuation.  Runs evaluated at it never
reach the float primitives: every head-loss guard (`Q < 0.01` LPM)
short-circuits first in those runs, mirroring the source paths that
never call `math.sqrt` / `math.log10` / `math.pi`. -/
def zeroFloatOps : FloatOps := ⟨0, fun _ => 0, fun _ => 0⟩

/-- A valid 1-branch × 1-head grid network at 0.001 LPM total flow
(default spacings and pressure): every pipe carries less than 0.01 LPM,
so every head loss is exactly 0 and the whole solve is exact rational
arithmetic. -/
def gridNet_tiny : GridNetwork :=
  build_grid_network 1 1 (7 / 2) (23 / 10) (7 / 5) (1 / 1000) none
    K1_BASE K2 0 (3 / 2) none none

/-- The default 4-branch × 4-head grid network at 400 LPM
(the configuration of the repository's own grid integration test). -/
def gridNet4 : GridNetwork :=
  build_grid_network 4 4 (7 / 2) (23 / 10) (7 / 5) 400 none
    K1_BASE K2 0 (3 / 2) none none

/-- Float primitives with `pi = 4`: together with a pipe of inner
diameter 1 m this makes the flow area exactly 1 m², so a laminar-regime
head-loss computation stays inside exact rational arithmetic. -/
def divergingFops : FloatOps := ⟨4, fun _ => 0, fun _ => 0⟩

/-- A single connector pipe (inner diameter 1 m, length 100 m, seeded
at 0.02 LPM).  At these flows the regime is laminar, so its head loss is
linear in the flow. -/
def divergingPipe : GridPipe :=
  ⟨0, 0, 0, .connector, .s25A, 1, 100, 1 / 50, -1, [], [], 0⟩

/-- A one-pipe, one-loop network: because the laminar loop head loss is
linear in the flow, a Hardy-Cross step with relaxation −2 doubles the
flow, so the recorded maximum imbalance doubles every iteration. -/
def divergingNet : GridNetwork :=
  ⟨[], [divergingPipe], [⟨0, [0], [1]⟩], 0, 0, 0, 0, 0, 0, 0, .s65A, 0⟩

/-- One parameter set of the unified solve interface (the keyword
arguments shared by the tree and grid entry points). -/
structure SolveParams where
  num_branches : ℤ
  heads_per_branch : ℤ
  branch_spacing_m : ℚ
  head_spacing_m : ℚ
  inlet_pressure_mpa : ℚ
  total_flow_lpm : ℚ
  bead_heights_2d : Option (List (List ℚ))
  K1_base : ℚ
  K2_val : ℚ
  K3_val : ℚ
  beads_per_branch : ℕ
  bead_height_for_weld_mm : ℚ
  weld_beads_2d : Option (List (List WeldBead))
  rng : Option (List (List ℚ))
  relaxation : ℚ
deriving DecidableEq

/-- The tree solve: `generate_dynamic_system` followed by
`calculate_dynamic_system`. -/
def solve_tree (fops : FloatOps) (p : SolveParams) :
    Except ValidationError SystemResult :=
  (generate_dynamic_system p.num_branches p.heads_per_branch
    p.branch_spacing_m p.head_spacing_m p.inlet_pressure_mpa p.total_flow_lpm
    p.bead_heights_2d p.K1_base p.K2_val p.beads_per_branch
    p.bead_height_for_weld_mm p.weld_beads_2d p.rng).map
    (fun sys => calculate_dynamic_system fops sys p.K3_val)

/-- The grid solve: `run_grid_system` on the same parameter set. -/
def solve_grid (fops : FloatOps) (p : SolveParams) :
    Except ValidationError GridResult :=
  run_grid_system fops p.num_branches p.heads_per_branch
    p.branch_spacing_m p.head_spacing_m p.inlet_pressure_mpa p.total_flow_lpm
    p.bead_heights_2d p.K1_base p.K2_val p.K3_val p.beads_per_branch
    p.bead_height_for_weld_mm p.weld_beads_2d p.rng p.relaxation

/-! ## Supporting lemmas -/

/-- `k_welded_fitting` agrees with its finite branch on unblocked
pipes. -/
theorem k_welded_fitting_fin_eq (bead D baseK : ℚ) (h : 0 < D - 2 * bead) :
    k_welded_fitting bead D baseK = some (k_welded_fitting_fin bead D baseK) := by
  unfold k_welded_fitting k_welded_fitting_fin
  simp [not_le.mpr h]

/-! ## C4 — laminar friction factor -/

/-- C4: for every Reynolds number `0 < Re < 2300`, every roughness and
diameter, and every valuation of the float primitives (hence with no
iteration), `friction_factor` returns exactly `64/Re`. -/
theorem friction_factor_laminar (fops : FloatOps) (Re epsilon D : ℚ)
    (h0 : 0 < Re) (h1 : Re < 2300) :
    friction_factor fops Re epsilon D = 64 / Re := by
  unfold friction_factor
  rw [if_neg (not_le.mpr h0), if_pos h1]

/-- Witness for C4 at `Re = 100`. -/
theorem friction_factor_laminar_witness :
    (0 : ℚ) < 100 ∧ (100 : ℚ) < 2300 ∧
      friction_factor zeroFloatOps 100 EPSILON_M (1 / 20) = 64 / 100 :=
  ⟨by norm_num, by norm_num,
    friction_factor_laminar zeroFloatOps 100 EPSILON_M (1 / 20)
      (by norm_num) (by norm_num)⟩

/-! ## C5 — welded-fitting K-factor -/

/-- C5: `k_welded_fitting` returns `baseK·(D/(D−2h))⁴` whenever
`D − 2h > 0`, and the infinity sentinel (`none`, modelling
`float('inf')`, returned rather than raised) whenever `D − 2h ≤ 0`. -/
theorem k_welded_fitting_spec (bead D baseK : ℚ) :
    (0 < D - 2 * bead →
      k_welded_fitting bead D baseK = some (baseK * (D / (D - 2 * bead)) ^ 4)) ∧
    (D - 2 * bead ≤ 0 → k_welded_fitting bead D baseK = none) := by
  constructor
  · intro h
    unfold k_welded_fitting
    rw [if_neg (not_le.mpr h)]
  · intro h
    unfold k_welded_fitting
    rw [if_pos h]

/-- Witness for C5: one unblocked and one blocked instance. -/
theorem k_welded_fitting_spec_witness :
    ((0 : ℚ) < 10 - 2 * 1 ∧
      k_welded_fitting 1 10 (1 / 2) = some ((1 / 2) * (10 / (10 - 2 * 1)) ^ 4)) ∧
    ((10 : ℚ) - 2 * 5 ≤ 0 ∧ k_welded_fitting 5 10 (1 / 2) = none) :=
  ⟨⟨by norm_num, (k_welded_fitting_spec 1 10 (1 / 2)).1 (by norm_num)⟩,
    ⟨by norm_num, (k_welded_fitting_spec 5 10 (1 / 2)).2 (by norm_num)⟩⟩

/-! ## C8 — sizing step functions -/

/-- C8: the two sizing functions realise exactly the documented
threshold tables, and both are monotone non-decreasing in the head
count (measured on the inner diameters of the selected tiers). -/
theorem auto_sizing_spec :
    (∀ n : ℤ,
      (1 ≤ n → n ≤ 2 → auto_pipe_size n = .s25A) ∧
      (n = 3 → auto_pipe_size n = .s32A) ∧
      (4 ≤ n → n ≤ 5 → auto_pipe_size n = .s40A) ∧
      (6 ≤ n → n ≤ 11 → auto_pipe_size n = .s50A) ∧
      (12 ≤ n → auto_pipe_size n = .s65A) ∧
      (n < 20 → auto_cross_main_size n = .s65A) ∧
      (20 ≤ n → n ≤ 39 → auto_cross_main_size n = .s80A) ∧
      (40 ≤ n → auto_cross_main_size n = .s100A)) ∧
    (∀ a b : ℤ, a ≤ b →
      id_mm (auto_pipe_size a) ≤ id_mm (auto_pipe_size b) ∧
      id_mm (auto_cross_main_size a) ≤ id_mm (auto_cross_main_size b)) := by
  constructor
  · intro n
    refine ⟨?_, ?_, ?_, ?_, ?_, ?_, ?_, ?_⟩ <;>
      (intros; simp only [auto_pipe_size, auto_cross_main_size]) <;>
      (split_ifs <;> first | rfl | omega)
  · intro a b hab
    constructor
    · unfold auto_pipe_size
      split_ifs <;> first | (exfalso; omega) | norm_num [id_mm]
    · unfold auto_cross_main_size
      split_ifs <;> first | (exfalso; omega) | norm_num [id_mm]

/-- Witness for C8 (the monotonicity half carries a hypothesis):
applied at `a = 5 ≤ b = 12`. -/
theorem auto_sizing_spec_witness :
    id_mm (auto_pipe_size 5) ≤ id_mm (auto_pipe_size 12) ∧
      id_mm (auto_cross_main_size 5) ≤ id_mm (auto_cross_main_size 12) :=
  auto_sizing_spec.2 5 12 (by norm_num)

/-! ## C1 — convergence reporting of the Hardy-Cross solver -/

/-- The `converged` flag of any `hc_run` outcome is exactly the test
`final max imbalance < tolerance_m` (false while still infinite). -/
theorem hc_run_converged_iff (fops : FloatOps)
    (K1b K3v relax tol_m tol_lpm : ℚ)
    (pipes : List GridPipe) (loops : List GridLoop) :
    ∀ (fuel : ℕ) (flows : List ℚ) (prev : Option ℚ) (dcount used : ℕ)
      (hist dhist : List ℚ) (lastImb lastDQ : Option ℚ),
      ((hc_run fops K1b K3v relax tol_m tol_lpm pipes loops fuel flows prev
          dcount used hist dhist lastImb lastDQ).converged = true ↔
        ∃ v, (hc_run fops K1b K3v relax tol_m tol_lpm pipes loops fuel flows prev
          dcount used hist dhist lastImb lastDQ).max_imbalance_m = some v ∧
          v < tol_m) := by
  intro fuel
  induction fuel with
  | zero =>
    intro flows prev dcount used hist dhist lastImb lastDQ
    cases lastImb <;> simp [hc_run, mk_hc_result]
  | succ fuel ih =>
    intro flows prev dcount used hist dhist lastImb lastDQ
    simp only [hc_run]
    split_ifs <;> first | (exact ih _ _ _ _ _ _ _ _) | (simp [mk_hc_result])

/-- If an `hc_run` stops before exhausting its fuel and does not report
divergence, the stop was the dual-criterion break: both final maxima
exist and satisfy their tolerances. -/
theorem hc_run_early_exit (fops : FloatOps)
    (K1b K3v relax tol_m tol_lpm : ℚ)
    (pipes : List GridPipe) (loops : List GridLoop) :
    ∀ (fuel : ℕ) (flows : List ℚ) (prev : Option ℚ) (dcount used : ℕ)
      (hist dhist : List ℚ) (lastImb lastDQ : Option ℚ),
      (hc_run fops K1b K3v relax tol_m tol_lpm pipes loops fuel flows prev
        dcount used hist dhist lastImb lastDQ).diverged = false →
      (hc_run fops K1b K3v relax tol_m tol_lpm pipes loops fuel flows prev
        dcount used hist dhist lastImb lastDQ).iterations < used + fuel →
      ∃ v w, (hc_run fops K1b K3v relax tol_m tol_lpm pipes loops fuel flows prev
          dcount used hist dhist lastImb lastDQ).max_imbalance_m = some v ∧
        (hc_run fops K1b K3v relax tol_m tol_lpm pipes loops fuel flows prev
          dcount used hist dhist lastImb lastDQ).max_delta_Q_lpm = some w ∧
        v < tol_m ∧ w < tol_lpm := by
  intro fuel
  induction fuel with
  | zero =>
    intro flows prev dcount used hist dhist lastImb lastDQ _ hiter
    simp [hc_run, mk_hc_result] at hiter
  | succ fuel ih =>
    intro flows prev dcount used hist dhist lastImb lastDQ hdiv hiter
    simp only [hc_run] at hdiv hiter ⊢
    split_ifs at hdiv hiter ⊢ <;>
      first
      | (exact ih _ _ _ _ _ _ _ _ hdiv (by omega))
      | (simp [mk_hc_result] at hdiv; done)
      | (refine ⟨_, _, rfl, rfl, ?_, ?_⟩ <;> tauto)

/-- C1 (as amended): an early exit of the iteration loop without a
divergence report did pass the dual criterion — both the final maximum
loop imbalance and the final maximum `|ΔQ|` are below their tolerances
— but the reported `converged` flag itself is exactly the
head-imbalance test `final max imbalance < tolerance_m`, independent of
the `ΔQ` criterion. -/
theorem solve_hardy_cross_convergence_criteria (fops : FloatOps)
    (network : GridNetwork) (K1b K3v : ℚ) (maxit : ℕ)
    (tol_m tol_lpm relax : ℚ) :
    ((solve_hardy_cross fops network K1b K3v maxit tol_m tol_lpm relax).diverged
        = false →
      (solve_hardy_cross fops network K1b K3v maxit tol_m tol_lpm relax).iterations
        < maxit →
      ∃ v w,
        (solve_hardy_cross fops network K1b K3v maxit tol_m tol_lpm relax).max_imbalance_m
            = some v ∧
        (solve_hardy_cross fops network K1b K3v maxit tol_m tol_lpm relax).max_delta_Q_lpm
            = some w ∧
        v < tol_m ∧ w < tol_lpm) ∧
    ((solve_hardy_cross fops network K1b K3v maxit tol_m tol_lpm relax).converged
        = true ↔
      ∃ v, (solve_hardy_cross fops network K1b K3v maxit tol_m tol_lpm relax).max_imbalance_m
          = some v ∧ v < tol_m) := by
  unfold solve_hardy_cross
  constructor
  · intro hdiv hiter
    exact hc_run_early_exit fops K1b K3v relax tol_m tol_lpm network.pipes
      network.loops maxit _ none 0 0 [] [] none none hdiv (by omega)
  · exact hc_run_converged_iff fops K1b K3v relax tol_m tol_lpm network.pipes
      network.loops maxit _ none 0 0 [] [] none none

/-- Witness for C1's amended theorem: a run on the low-flow 1×1 grid
with `tolerance_lpm = 1` stops at iteration 1 of 5 by the dual
criterion. -/
theorem solve_hardy_cross_convergence_criteria_witness :
    ∃ v w,
      (solve_hardy_cross zeroFloatOps gridNet_tiny K1_BASE K3 5 HC_TOLERANCE_M 1
          HC_RELAXATION_FACTOR).max_imbalance_m = some v ∧
      (solve_hardy_cross zeroFloatOps gridNet_tiny K1_BASE K3 5 HC_TOLERANCE_M 1
          HC_RELAXATION_FACTOR).max_delta_Q_lpm = some w ∧
      v < HC_TOLERANCE_M ∧ w < 1 :=
  (solve_hardy_cross_convergence_criteria zeroFloatOps gridNet_tiny K1_BASE K3 5
    HC_TOLERANCE_M 1 HC_RELAXATION_FACTOR).1 (by with_unfolding_all decide)
    (by with_unfolding_all decide)

/-- C1 counterexample: on the (valid) 1-branch × 1-head grid at
0.001 LPM, with `max_iterations = 1`, the default `tolerance_m` and the
tolerance setting `tolerance_lpm = 0`, the solver reports
`converged = true` although the final `|ΔQ|` criterion
(`max ΔQ < tolerance_lpm`, here `0 < 0`) fails — convergence is
declared on the head-imbalance criterion alone. -/
theorem solve_hardy_cross_single_criterion_cex :
    generate_grid_network 1 1 (7 / 2) (23 / 10) (7 / 5) (1 / 1000) none
        K1_BASE K2 0 (3 / 2) none none = .ok gridNet_tiny ∧
    (solve_hardy_cross zeroFloatOps gridNet_tiny K1_BASE K3 1 HC_TOLERANCE_M 0
        HC_RELAXATION_FACTOR).converged = true ∧
    (solve_hardy_cross zeroFloatOps gridNet_tiny K1_BASE K3 1 HC_TOLERANCE_M 0
        HC_RELAXATION_FACTOR).max_delta_Q_lpm = some 0 ∧
    ¬((0 : ℚ) < 0) := by
  refine ⟨by with_unfolding_all rfl, by with_unfolding_all decide,
    by with_unfolding_all decide, by norm_num⟩

/-! ## C3 — divergence guard -/

lemma diverging_phl (Q : ℚ) (h1 : 1 / 100 ≤ Q) (h2 : Q ≤ 1) :
    pipe_head_loss divergingFops divergingPipe Q K1_BASE K3
      = (167 / 30594937500) * Q := by
  have hQ0 : 0 < Q := lt_of_lt_of_le (by norm_num) h1
  have hV : velocity_from_flow divergingFops Q 1 = Q / 60000 := by
    unfold velocity_from_flow divergingFops
    norm_num
  have hRe : reynolds_number (Q / 60000) 1 NU = (24950 / 1503) * Q := by
    unfold reynolds_number NU MU RHO
    norm_num
    ring
  have hRe0 : (0 : ℚ) < (24950 / 1503) * Q := by positivity
  have hRe1 : (24950 / 1503) * Q < 2300 := by nlinarith
  have hf : friction_factor divergingFops ((24950 / 1503) * Q) EPSILON_M 1
      = 64 / ((24950 / 1503) * Q) := by
    unfold friction_factor
    rw [if_neg (not_le.mpr hRe0), if_pos hRe1]
  have hmaj : major_loss (64 / ((24950 / 1503) * Q)) 100 1 (Q / 60000)
      = (167 / 30594937500) * Q := by
    unfold major_loss G
    rw [if_neg (by norm_num : ¬((1 : ℚ) ≤ 0))]
    field_simp
    ring
  unfold pipe_head_loss
  rw [if_neg (not_lt.mpr h1)]
  simp only [divergingPipe]
  rw [hV, hRe, hf, hmaj]

lemma diverging_lc (Q : ℚ) (h1 : 1 / 100 < Q) (h2 : Q ≤ 1) :
    loop_correction divergingFops K1_BASE K3 (-2) divergingNet.pipes [Q]
      ⟨0, [0], [1]⟩
      = ([2 * Q], (167 / 30594937500) * Q, Q) := by
  have hQ0 : 0 < Q := lt_trans (by norm_num) h1
  have habs : |Q| = Q := abs_of_pos hQ0
  have hgp : divergingNet.pipes.getD 0 default = divergingPipe := rfl
  have hgq : [Q].getD 0 0 = Q := rfl
  unfold loop_correction
  simp only [List.zip, List.zipWith, List.foldl_cons, List.foldl_nil]
  rw [hgp, hgq, habs, diverging_phl Q (le_of_lt h1) h2]
  simp only [Int.cast_one, mul_one, hQ0.le, h1, if_true, zero_add]
  have hdd : 2 * ((167 / 30594937500) * Q) / Q = 167 / 15297468750 := by
    field_simp
    ring
  rw [hdd, if_pos (by norm_num : (1 : ℚ) / 10 ^ 10 < 167 / 15297468750)]
  have hdq : -((167 / 30594937500) * Q) / (167 / 15297468750) * -2 = Q := by
    field_simp
    ring
  rw [hdq, habs,
    show |(167 / 30594937500) * Q| = (167 / 30594937500) * Q from
      abs_of_pos (mul_pos (by norm_num) hQ0),
    show [Q].set 0 (Q + Q) = [Q + Q] from rfl,
    show Q + Q = 2 * Q from by ring]

lemma diverging_iter (Q : ℚ) (h1 : 1 / 100 < Q) (h2 : Q ≤ 1) :
    hc_iteration divergingFops K1_BASE K3 (-2) divergingNet.pipes
      divergingNet.loops [Q]
      = ([2 * Q], (167 / 30594937500) * Q, Q) := by
  unfold hc_iteration
  rw [show divergingNet.loops = [(⟨0, [0], [1]⟩ : GridLoop)] from rfl,
    List.foldl_cons, List.foldl_nil, diverging_lc Q h1 h2]
  simp only [max_eq_right (mul_nonneg (by norm_num : (0:ℚ) ≤ 167 / 30594937500)
    (le_of_lt (lt_trans (by norm_num) h1))),
    max_eq_right (le_of_lt (lt_trans (by norm_num : (0:ℚ) < 1 / 100) h1))]

lemma diverging_run_hist :
    (solve_hardy_cross divergingFops divergingNet K1_BASE K3 4 0 0
      (-2)).imbalance_history
      = [167 / 1529746875000, 167 / 764873437500, 167 / 382436718750,
        167 / 191218359375] := by
  have hi1 : hc_iteration divergingFops K1_BASE K3 (-2) divergingNet.pipes
      divergingNet.loops [1 / 50]
      = ([1 / 25], 167 / 1529746875000, 1 / 50) := by
    rw [diverging_iter (1 / 50) (by norm_num) (by norm_num)]
    norm_num
  have hi2 : hc_iteration divergingFops K1_BASE K3 (-2) divergingNet.pipes
      divergingNet.loops [1 / 25]
      = ([2 / 25], 167 / 764873437500, 1 / 25) := by
    rw [diverging_iter (1 / 25) (by norm_num) (by norm_num)]
    norm_num
  have hi3 : hc_iteration divergingFops K1_BASE K3 (-2) divergingNet.pipes
      divergingNet.loops [2 / 25]
      = ([4 / 25], 167 / 382436718750, 2 / 25) := by
    rw [diverging_iter (2 / 25) (by norm_num) (by norm_num)]
    norm_num
  have hi4 : hc_iteration divergingFops K1_BASE K3 (-2) divergingNet.pipes
      divergingNet.loops [4 / 25]
      = ([8 / 25], 167 / 191218359375, 4 / 25) := by
    rw [diverging_iter (4 / 25) (by norm_num) (by norm_num)]
    norm_num
  unfold solve_hardy_cross
  rw [show divergingNet.pipes.map (fun p => p.flow_lpm) = [1 / 50] from rfl]
  rw [show (4 : ℕ) = 3 + 1 from rfl]
  simp only [hc_run]
  norm_num [hi1, hi2, hi3, hi4, mk_hc_result]

/-- Concatenations ending in a singleton are equal only componentwise. -/
lemma concat_eq_concat (l1 l2 : List ℚ) (x y : ℚ) (h : l1 ++ [x] = l2 ++ [y]) :
    l1 = l2 ∧ x = y := by
  obtain ⟨h1, h2⟩ := List.append_inj' h rfl
  exact ⟨h1, by simpa using h2⟩

/-- A list with no last element is empty. -/
lemma getLast_none_nil (l : List ℚ) (h : l.getLast? = none) : l = [] := by
  rcases l.eq_nil_or_concat' with rfl | ⟨l2, y, rfl⟩
  · rfl
  · rw [List.getLast?_concat] at h
    simp at h

/-- A list with last element `p` splits off `[p]`. -/
lemma getLast_some_concat (l : List ℚ) (p : ℚ) (h : l.getLast? = some p) :
    ∃ l2, l = l2 ++ [p] := by
  rcases l.eq_nil_or_concat' with rfl | ⟨l2, y, rfl⟩
  · simp at h
  · rw [List.getLast?_concat] at h
    exact ⟨l2, by rw [Option.some.inj h]⟩

/-- The last element of `pre ++ [a, b]` is `b`. -/
lemma getLast_of_concat_pair (l pre : List ℚ) (a b : ℚ) (h : l = pre ++ [a, b]) :
    l.getLast? = some b := by
  subst h
  rw [show pre ++ [a, b] = (pre ++ [a]) ++ [b] by simp, List.getLast?_concat]

/-- The last element of `pre ++ [a, b, c]` is `c`. -/
lemma getLast_of_concat_triple (l pre : List ℚ) (a b c : ℚ)
    (h : l = pre ++ [a, b, c]) : l.getLast? = some c := by
  subst h
  rw [show pre ++ [a, b, c] = (pre ++ [a, b]) ++ [c] by simp, List.getLast?_concat]

/-- A four-element window of `l ++ [x]` either ends exactly at `x` or lies
inside `l`. -/
lemma concat_quad_split (l : List ℚ) (x : ℚ) (pre : List ℚ) (a b c d : ℚ)
    (suf : List ℚ) (h : l ++ [x] = pre ++ a :: b :: c :: d :: suf) :
    (suf = [] ∧ l = pre ++ [a, b, c] ∧ d = x) ∨
    ∃ suf2, l = pre ++ a :: b :: c :: d :: suf2 := by
  rcases suf.eq_nil_or_concat' with rfl | ⟨suf2, y, rfl⟩
  · left
    have h2 : l ++ [x] = (pre ++ [a, b, c]) ++ [d] := by simpa using h
    obtain ⟨h3, h4⟩ := concat_eq_concat l (pre ++ [a, b, c]) x d h2
    exact ⟨rfl, h3, h4.symm⟩
  · right
    have h2 : l ++ [x] = (pre ++ a :: b :: c :: d :: suf2) ++ [y] := by
      simpa using h
    obtain ⟨h3, _⟩ := concat_eq_concat l (pre ++ a :: b :: c :: d :: suf2) x y h2
    exact ⟨suf2, h3⟩

/-- The divergence-guard characterization of `hc_run`, generalized over the
iteration state.  The invariants say: the `prev` tracker is the last recorded
history entry; a counter value of 1 (resp. 2) guarantees the history ends
with one (resp. two) consecutive >1% rises, and conversely a history ending
with one (resp. two) consecutive rises forces a counter of at least 1
(resp. 2); and the history recorded so far contains no three consecutive
rises.  Conclusion: in the final history, three consecutive >1% rises occur
only as the last four entries and force `diverged = true`, and
`diverged = true` is reported only when the final history ends with three
consecutive >1% rises. -/
lemma hc_run_guard_characterization (fops : FloatOps)
    (K1b K3v relax tol_m tol_lpm : ℚ)
    (pipes : List GridPipe) (loops : List GridLoop) :
    ∀ (fuel : ℕ) (flows : List ℚ) (prev : Option ℚ) (dcount used : ℕ)
      (hist dhist : List ℚ) (lastImb lastDQ : Option ℚ),
      prev = hist.getLast? →
      (1 ≤ dcount → ∃ pre a b, hist = pre ++ [a, b] ∧ a * (101 / 100) < b) →
      (2 ≤ dcount → ∃ pre a b c, hist = pre ++ [a, b, c] ∧
        a * (101 / 100) < b ∧ b * (101 / 100) < c) →
      (∀ pre a b, hist = pre ++ [a, b] → a * (101 / 100) < b → 1 ≤ dcount) →
      (∀ pre a b c, hist = pre ++ [a, b, c] → a * (101 / 100) < b →
        b * (101 / 100) < c → 2 ≤ dcount) →
      (∀ pre a b c d suf, hist = pre ++ a :: b :: c :: d :: suf →
        a * (101 / 100) < b → b * (101 / 100) < c → c * (101 / 100) < d →
        False) →
      (∀ pre a b c d suf,
        (hc_run fops K1b K3v relax tol_m tol_lpm pipes loops fuel flows prev
          dcount used hist dhist lastImb lastDQ).imbalance_history
          = pre ++ a :: b :: c :: d :: suf →
        a * (101 / 100) < b → b * (101 / 100) < c → c * (101 / 100) < d →
        suf = [] ∧
          (hc_run fops K1b K3v relax tol_m tol_lpm pipes loops fuel flows prev
            dcount used hist dhist lastImb lastDQ).diverged = true) ∧
      ((hc_run fops K1b K3v relax tol_m tol_lpm pipes loops fuel flows prev
          dcount used hist dhist lastImb lastDQ).diverged = true →
        ∃ pre a b c d,
          (hc_run fops K1b K3v relax tol_m tol_lpm pipes loops fuel flows prev
            dcount used hist dhist lastImb lastDQ).imbalance_history
            = pre ++ [a, b, c, d] ∧
          a * (101 / 100) < b ∧ b * (101 / 100) < c ∧ c * (101 / 100) < d) := by
  intro fuel
  induction fuel with
  | zero =>
    intro flows prev dcount used hist dhist lastImb lastDQ hprev hlow1 hlow2
      hup1 hup2 hnt
    constructor
    · intro pre a b c d suf hh hra hrb hrc
      simp only [hc_run, mk_hc_result] at hh
      exact (hnt pre a b c d suf hh hra hrb hrc).elim
    · intro hdiv
      simp [hc_run, mk_hc_result] at hdiv
  | succ fuel ih =>
    intro flows prev dcount used hist dhist lastImb lastDQ hprev hlow1 hlow2
      hup1 hup2 hnt
    cases prev with
    | none =>
      have hnil : hist = [] := getLast_none_nil hist hprev.symm
      subst hnil
      simp only [hc_run, Bool.false_eq_true, if_false]
      generalize hc_iteration fops K1b K3v relax pipes loops flows = q
      split_ifs with h3
      · constructor
        · intro pre a b c d suf hh hra hrb hrc
          simp only [mk_hc_result, List.nil_append] at hh
          have hlen := congrArg List.length hh
          simp only [List.length_append, List.length_cons, List.length_nil]
            at hlen
          exact absurd hlen (by omega)
        · intro hdiv
          simp [mk_hc_result] at hdiv
      · refine ih _ _ _ _ _ _ _ _ ?_ ?_ ?_ ?_ ?_ ?_
        · exact (List.getLast?_concat _).symm
        · intro h5
          exact absurd h5 (by omega)
        · intro h5
          exact absurd h5 (by omega)
        · intro pre a b hh hra
          have hlen := congrArg List.length hh
          simp only [List.length_append, List.length_cons, List.length_nil]
            at hlen
          omega
        · intro pre a b c hh hra hrb
          have hlen := congrArg List.length hh
          simp only [List.length_append, List.length_cons, List.length_nil]
            at hlen
          omega
        · intro pre a b c d suf hh hra hrb hrc
          have hlen := congrArg List.length hh
          simp only [List.length_append, List.length_cons, List.length_nil]
            at hlen
          omega
    | some p =>
      obtain ⟨pp, hpp⟩ := getLast_some_concat hist p hprev.symm
      simp only [hc_run]
      generalize hc_iteration fops K1b K3v relax pipes loops flows = q
      split_ifs with h1 h2 h3 h4
      · -- third consecutive rise: the guard aborts with diverged = true
        have hr : p * (101 / 100) < q.2.1 := of_decide_eq_true h1
        have hd2 : 2 ≤ dcount := by omega
        obtain ⟨pre0, a0, b0, c0, hsh, hr1, hr2⟩ := hlow2 hd2
        have hc0 : hist.getLast? = some c0 :=
          getLast_of_concat_triple hist pre0 a0 b0 c0 hsh
        have hcp : c0 = p := (Option.some.inj (hprev.trans hc0)).symm
        constructor
        · intro pre a b c d suf hh hra hrb hrc
          simp only [mk_hc_result] at hh ⊢
          rcases concat_quad_split hist q.2.1 pre a b c d suf hh with
            ⟨hs, hl, hdx⟩ | ⟨suf2, hl⟩
          · exact ⟨hs, trivial⟩
          · exact (hnt pre a b c d suf2 hl hra hrb hrc).elim
        · intro hdiv2
          refine ⟨pre0, a0, b0, c0, q.2.1, ?_, hr1, hr2, ?_⟩
          · simp only [mk_hc_result]
            rw [hsh]
            simp
          · rw [hcp]
            exact hr
      · -- a rise below the third: the dual-criterion break, no divergence
        constructor
        · intro pre a b c d suf hh hra hrb hrc
          simp only [mk_hc_result] at hh
          rcases concat_quad_split hist q.2.1 pre a b c d suf hh with
            ⟨hs, hl, hdx⟩ | ⟨suf2, hl⟩
          · exact absurd (hup2 pre a b c hl hra hrb) (by omega)
          · exact (hnt pre a b c d suf2 hl hra hrb hrc).elim
        · intro hdiv
          simp [mk_hc_result] at hdiv
      · -- a rise below the third: recurse with the counter incremented
        have hr : p * (101 / 100) < q.2.1 := of_decide_eq_true h1
        refine ih _ _ _ _ _ _ _ _ ?_ ?_ ?_ ?_ ?_ ?_
        · exact (List.getLast?_concat _).symm
        · intro h5
          refine ⟨pp, p, q.2.1, ?_, hr⟩
          rw [hpp]
          simp
        · intro h5
          have h6 : 1 ≤ dcount := by omega
          obtain ⟨pre0, a0, b0, hsh, hr1⟩ := hlow1 h6
          have hb0 : hist.getLast? = some b0 :=
            getLast_of_concat_pair hist pre0 a0 b0 hsh
          have hbp : b0 = p := (Option.some.inj (hprev.trans hb0)).symm
          refine ⟨pre0, a0, b0, q.2.1, ?_, hr1, ?_⟩
          · rw [hsh]
            simp
          · rw [hbp]
            exact hr
        · intro pre a b hh hra
          omega
        · intro pre a b c hh hra hrb
          have h6 : hist ++ [q.2.1] = (pre ++ [a, b]) ++ [c] := by simpa using hh
          obtain ⟨h7, h8⟩ := concat_eq_concat hist (pre ++ [a, b]) q.2.1 c h6
          have := hup1 pre a b h7 hra
          omega
        · intro pre a b c d suf hh hra hrb hrc
          rcases concat_quad_split hist q.2.1 pre a b c d suf hh with
            ⟨hs, hl, hdx⟩ | ⟨suf2, hl⟩
          · exact absurd (hup2 pre a b c hl hra hrb) (by omega)
          · exact hnt pre a b c d suf2 hl hra hrb hrc
      · -- no rise: the dual-criterion break, no divergence
        have hnr : ¬(p * (101 / 100) < q.2.1) := by simpa using h1
        constructor
        · intro pre a b c d suf hh hra hrb hrc
          simp only [mk_hc_result] at hh
          rcases concat_quad_split hist q.2.1 pre a b c d suf hh with
            ⟨hs, hl, hdx⟩ | ⟨suf2, hl⟩
          · have hcl : hist.getLast? = some c :=
              getLast_of_concat_triple hist pre a b c hl
            have hcp : c = p := (Option.some.inj (hprev.trans hcl)).symm
            rw [hcp, hdx] at hrc
            exact (hnr hrc).elim
          · exact (hnt pre a b c d suf2 hl hra hrb hrc).elim
        · intro hdiv
          simp [mk_hc_result] at hdiv
      · -- no rise: recurse with the counter reset to zero
        have hnr : ¬(p * (101 / 100) < q.2.1) := by simpa using h1
        refine ih _ _ _ _ _ _ _ _ ?_ ?_ ?_ ?_ ?_ ?_
        · exact (List.getLast?_concat _).symm
        · intro h5
          exact absurd h5 (by omega)
        · intro h5
          exact absurd h5 (by omega)
        · intro pre a b hh hra
          have h6 : hist ++ [q.2.1] = (pre ++ [a]) ++ [b] := by simpa using hh
          obtain ⟨h7, h8⟩ := concat_eq_concat hist (pre ++ [a]) q.2.1 b h6
          have hal : hist.getLast? = some a := by
            rw [h7]
            exact List.getLast?_concat _
          have hap : a = p := (Option.some.inj (hprev.trans hal)).symm
          rw [hap, ← h8] at hra
          exact (hnr hra).elim
        · intro pre a b c hh hra hrb
          have h6 : hist ++ [q.2.1] = (pre ++ [a, b]) ++ [c] := by simpa using hh
          obtain ⟨h7, h8⟩ := concat_eq_concat hist (pre ++ [a, b]) q.2.1 c h6
          have hbl : hist.getLast? = some b :=
            getLast_of_concat_pair hist pre a b h7
          have hbp : b = p := (Option.some.inj (hprev.trans hbl)).symm
          rw [hbp, ← h8] at hrb
          exact (hnr hrb).elim
        · intro pre a b c d suf hh hra hrb hrc
          rcases concat_quad_split hist q.2.1 pre a b c d suf hh with
            ⟨hs, hl, hdx⟩ | ⟨suf2, hl⟩
          · have hcl : hist.getLast? = some c :=
              getLast_of_concat_triple hist pre a b c hl
            have hcp : c = p := (Option.some.inj (hprev.trans hcl)).symm
            rw [hcp, hdx] at hrc
            exact (hnr hrc).elim
          · exact hnt pre a b c d suf2 hl hra hrb hrc

/-- C3: the divergence guard of `solve_hardy_cross` counts consecutive
iterations whose recorded maximum loop imbalance exceeds 1.01 times the
previous iteration's, resets the counter otherwise, and aborts on the third
consecutive increase: whenever the recorded imbalance history contains three
consecutive >1% rises they are its last four entries — the run stopped at
that very iteration — and `diverged = true` is reported; conversely
`diverged = true` is reported only when the history ends with three
consecutive >1% rises.  In particular, a run whose history never rises above
1.01 times the previous value never reports `diverged`. -/
theorem solve_hardy_cross_divergence_abort (fops : FloatOps)
    (network : GridNetwork) (K1b K3v : ℚ) (maxit : ℕ)
    (tol_m tol_lpm relax : ℚ) :
    (∀ pre a b c d suf,
      (solve_hardy_cross fops network K1b K3v maxit tol_m tol_lpm
          relax).imbalance_history = pre ++ a :: b :: c :: d :: suf →
      a * (101 / 100) < b → b * (101 / 100) < c → c * (101 / 100) < d →
      suf = [] ∧
        (solve_hardy_cross fops network K1b K3v maxit tol_m tol_lpm
          relax).diverged = true) ∧
    ((solve_hardy_cross fops network K1b K3v maxit tol_m tol_lpm
        relax).diverged = true →
      ∃ pre a b c d,
        (solve_hardy_cross fops network K1b K3v maxit tol_m tol_lpm
            relax).imbalance_history = pre ++ [a, b, c, d] ∧
        a * (101 / 100) < b ∧ b * (101 / 100) < c ∧ c * (101 / 100) < d) := by
  unfold solve_hardy_cross
  refine hc_run_guard_characterization fops K1b K3v relax tol_m tol_lpm
    network.pipes network.loops maxit _ none 0 0 [] [] none none rfl
    ?_ ?_ ?_ ?_ ?_
  · intro h5
    exact absurd h5 (by omega)
  · intro h5
    exact absurd h5 (by omega)
  · intro pre a b hh hra
    exact absurd hh (by simp)
  · intro pre a b c hh hra hrb
    exact absurd hh (by simp)
  · intro pre a b c d suf hh hra hrb hrc
    exact absurd hh (by simp)

/-- Witness for C3: on the one-pipe loop network in the laminar regime with
relaxation −2, the flow doubles every iteration, so the recorded imbalance
history rises by 100% three times in a row; the run aborts at iteration 4 of
the allowed 4 with `diverged = true`. -/
theorem solve_hardy_cross_divergence_abort_witness :
    (solve_hardy_cross divergingFops divergingNet K1_BASE K3 4 0 0
      (-2)).diverged = true :=
  ((solve_hardy_cross_divergence_abort divergingFops divergingNet K1_BASE K3
      4 0 0 (-2)).1 [] (167 / 1529746875000) (167 / 764873437500)
      (167 / 382436718750) (167 / 191218359375) []
      (by simpa using diverging_run_hist) (by norm_num) (by norm_num)
      (by norm_num)).2

/-! ## C2 — grid mass balance -/

/-- The inflow/outflow accumulation of `node_inflow_outflow`, in signed
form: its `inflow − outflow` adds `−flow` per pipe starting at the node
and `+flow` per pipe ending there, whatever the flow signs. -/
theorem io_fold_signed (node : GridNode) :
    ∀ (pipes : List GridPipe) (b : ℚ × ℚ),
      (pipes.foldl (fun acc p =>
        if p.start_node_id = node.id then
          if 0 ≤ p.flow_lpm then (acc.1, acc.2 + p.flow_lpm)
          else (acc.1 + |p.flow_lpm|, acc.2)
        else if p.end_node_id = node.id then
          if 0 ≤ p.flow_lpm then (acc.1 + p.flow_lpm, acc.2)
          else (acc.1, acc.2 + |p.flow_lpm|)
        else acc) b).1
      - (pipes.foldl (fun acc p =>
        if p.start_node_id = node.id then
          if 0 ≤ p.flow_lpm then (acc.1, acc.2 + p.flow_lpm)
          else (acc.1 + |p.flow_lpm|, acc.2)
        else if p.end_node_id = node.id then
          if 0 ≤ p.flow_lpm then (acc.1 + p.flow_lpm, acc.2)
          else (acc.1, acc.2 + |p.flow_lpm|)
        else acc) b).2
      = b.1 - b.2 + (pipes.map (fun p =>
          if p.start_node_id = node.id then -p.flow_lpm
          else if p.end_node_id = node.id then p.flow_lpm
          else 0)).sum := by
  intro pipes
  induction pipes with
  | nil => intro b; simp
  | cons p rest ih =>
    intro b
    simp only [List.foldl_cons, List.map_cons, List.sum_cons]
    rw [ih]
    rcases le_or_lt 0 p.flow_lpm with hf | hf
    · rw [abs_of_nonneg hf]
      split_ifs <;> ring
    · rw [abs_of_neg hf]
      split_ifs <;> ring

/-- `balance_lpm` in signed form: supply at the inlet plus the signed
pipe contributions. -/
theorem node_balance_signed (pipes : List GridPipe) (t : ℚ) (node : GridNode) :
    node_balance pipes t node
      = (if node.is_inlet then t else 0)
        + (pipes.map (fun p =>
            if p.start_node_id = node.id then -p.flow_lpm
            else if p.end_node_id = node.id then p.flow_lpm
            else 0)).sum := by
  have h := io_fold_signed node pipes (if node.is_inlet then t else 0, 0)
  simp only [node_balance, node_inflow_outflow]
  rw [h]
  ring

/-- On the 4×4 grid topology the node balances always add up to the
full external supply of 400 LPM, whatever flows the 14 pipes carry:
every pipe cancels between its two endpoints and nothing models the
heads' discharge as a nodal demand. -/
theorem gridNet4_balance_sum (flows : List ℚ) (hlen : flows.length = 14) :
    ((set_flows gridNet4 flows).nodes.map
      (node_balance (set_flows gridNet4 flows).pipes 400)).sum = 400 := by
  rcases flows with _ | ⟨q0, _ | ⟨q1, _ | ⟨q2, _ | ⟨q3, _ | ⟨q4, _ | ⟨q5, _ |
    ⟨q6, _ | ⟨q7, _ | ⟨q8, _ | ⟨q9, _ | ⟨q10, _ | ⟨q11, _ | ⟨q12, _ | ⟨q13,
    _ | ⟨q14, rest⟩⟩⟩⟩⟩⟩⟩⟩⟩⟩⟩⟩⟩⟩⟩ <;>
    try (exfalso; simp only [List.length_cons, List.length_nil] at hlen; omega)
  simp only [set_flows, gridNet4, build_grid_network, initialize_grid_flows, node_id,
    List.range_succ, List.range_zero]
  norm_num [node_balance_signed, List.zipWith, List.map, List.flatMap]
  ring

/-- `|Σl| ≤ |l|·c` when every element of `l` is bounded by `c` in
absolute value. -/
theorem abs_list_sum_le (c : ℚ) :
    ∀ l : List ℚ, (∀ x ∈ l, |x| ≤ c) → |l.sum| ≤ l.length * c := by
  intro l
  induction l with
  | nil => intro _; simp
  | cons x rest ih =>
    intro h
    have hx : |x| ≤ c := h x (List.mem_cons_self x rest)
    have hr := ih (fun y hy => h y (List.mem_cons_of_mem x hy))
    calc |(x :: rest).sum| = |x + rest.sum| := by simp
      _ ≤ |x| + |rest.sum| := abs_add _ _
      _ ≤ c + rest.length * c := add_le_add hx hr
      _ = (x :: rest).length * c := by simp [List.length_cons]; ring

/-- C2 fails on the code: at the default 4-branch × 4-head grid with
400 LPM, the seeded flows leave BOT node (1,1) (id 6) with
`inflow − outflow = 200` LPM; moreover on this topology the node
balances always sum to the external supply 400 LPM whatever flows the
pipes carry — the heads discharge through no node — so no flow state,
in particular no Hardy-Cross outcome, can bring every node within
`tolerance_lpm`. -/
theorem grid_mass_balance_violation :
    node_balance gridNet4.pipes 400 (gridNet4.nodes.getD 6 default) = 200 ∧
    (∀ flows : List ℚ, flows.length = 14 →
      ((set_flows gridNet4 flows).nodes.map
        (node_balance (set_flows gridNet4 flows).pipes 400)).sum = 400) ∧
    (∀ flows : List ℚ, flows.length = 14 →
      ¬ (∀ node ∈ (set_flows gridNet4 flows).nodes,
          |node_balance (set_flows gridNet4 flows).pipes 400 node| <
            HC_TOLERANCE_LPM)) := by
  refine ⟨by with_unfolding_all decide, gridNet4_balance_sum, ?_⟩
  intro flows hlen hall
  have hsum := gridNet4_balance_sum flows hlen
  have hlen10 : ((set_flows gridNet4 flows).nodes.map
      (node_balance (set_flows gridNet4 flows).pipes 400)).length = 10 := by
    rw [List.length_map]
    show gridNet4.nodes.length = 10
    with_unfolding_all decide
  have hbound := abs_list_sum_le HC_TOLERANCE_LPM
    ((set_flows gridNet4 flows).nodes.map
      (node_balance (set_flows gridNet4 flows).pipes 400))
    (by
      intro x hx
      rcases List.mem_map.mp hx with ⟨node, hnode, rfl⟩
      exact le_of_lt (hall node hnode))
  rw [hsum, hlen10] at hbound
  norm_num [HC_TOLERANCE_LPM] at hbound

/-- Witness for C2's theorem at the all-zero flow state. -/
theorem grid_mass_balance_violation_witness :
    (List.replicate 14 (0 : ℚ)).length = 14 ∧
    ((set_flows gridNet4 (List.replicate 14 (0 : ℚ))).nodes.map
      (node_balance (set_flows gridNet4 (List.replicate 14 (0 : ℚ))).pipes
        400)).sum = 400 :=
  ⟨by simp, grid_mass_balance_violation.2.1 (List.replicate 14 0) (by simp)⟩

/-! ## C7 — validation before construction -/

/-- C7: every invalid input (branch count outside `[1, 200]`, heads per
branch outside `[1, 50]`, or a non-positive spacing, pressure or flow)
makes the validator and both generators return the same
`ValidationError` (whose constructors carry the offending value) — the
generators short-circuit on it, so nothing is built. -/
theorem validation_rejects_invalid (nb hb : ℤ) (bs hs ip tf : ℚ)
    (bh2d : Option (List (List ℚ))) (K1b K2v : ℚ) (bpb : ℕ) (bhw : ℚ)
    (wb2d : Option (List (List WeldBead))) (rng : Option (List (List ℚ)))
    (hinv : nb < 1 ∨ MAX_BRANCHES < nb ∨ hb < 1 ∨ MAX_HEADS_PER_BRANCH < hb ∨
      bs ≤ 0 ∨ hs ≤ 0 ∨ ip ≤ 0 ∨ tf ≤ 0) :
    ∃ e : ValidationError,
      validate_dynamic_inputs nb hb bs hs ip tf = .error e ∧
      generate_dynamic_system nb hb bs hs ip tf bh2d K1b K2v bpb bhw wb2d rng
        = .error e ∧
      generate_grid_network nb hb bs hs ip tf bh2d K1b K2v bpb bhw wb2d rng
        = .error e := by
  have hval : ∃ e, validate_dynamic_inputs nb hb bs hs ip tf = .error e := by
    unfold validate_dynamic_inputs
    split_ifs with h1 h2 h3 h4 h5 h6 h7 h8
    · exact ⟨_, rfl⟩
    · exact ⟨_, rfl⟩
    · exact ⟨_, rfl⟩
    · exact ⟨_, rfl⟩
    · exact ⟨_, rfl⟩
    · exact ⟨_, rfl⟩
    · exact ⟨_, rfl⟩
    · exact ⟨_, rfl⟩
    · rcases hinv with h | h | h | h | h | h | h | h
      · exact (h1 h).elim
      · exact (h2 h).elim
      · exact (h3 h).elim
      · exact (h4 h).elim
      · exact (h5 h).elim
      · exact (h6 h).elim
      · exact (h7 h).elim
      · exact (h8 h).elim
  rcases hval with ⟨e, he⟩
  refine ⟨e, he, ?_, ?_⟩ <;>
    simp [generate_dynamic_system, generate_grid_network, he, Bind.bind,
      Except.bind]

/-- Witness for C7 at branch count 0. -/
theorem validation_rejects_invalid_witness :
    ∃ e : ValidationError,
      validate_dynamic_inputs 0 8 (7 / 2) (23 / 10) (7 / 5) 400 = .error e ∧
      generate_dynamic_system 0 8 (7 / 2) (23 / 10) (7 / 5) 400 none K1_BASE K2
        0 (3 / 2) none none = .error e ∧
      generate_grid_network 0 8 (7 / 2) (23 / 10) (7 / 5) 400 none K1_BASE K2
        0 (3 / 2) none none = .error e :=
  validation_rejects_invalid 0 8 (7 / 2) (23 / 10) (7 / 5) 400 none K1_BASE K2
    0 (3 / 2) none none (Or.inl (by norm_num))

/-! ## C9 — deterministic re-solve -/

/-- C9: the solve pipelines are pure functions of their parameter set
(the optional random source being part of it), so two runs at equal
parameters agree in every result field. -/
theorem solving_deterministic (fops : FloatOps) (p q : SolveParams)
    (h : p = q) :
    solve_tree fops p = solve_tree fops q ∧
      solve_grid fops p = solve_grid fops q := by
  subst h
  exact ⟨rfl, rfl⟩

/-- Witness for C9 at a concrete parameter set. -/
theorem solving_deterministic_witness :
    solve_tree zeroFloatOps
        ⟨1, 1, 7 / 2, 23 / 10, 7 / 5, 1 / 1000, none, K1_BASE, K2, K3, 0,
          3 / 2, none, none, 1 / 2⟩
      = solve_tree zeroFloatOps
        ⟨1, 1, 7 / 2, 23 / 10, 7 / 5, 1 / 1000, none, K1_BASE, K2, K3, 0,
          3 / 2, none, none, 1 / 2⟩ ∧
    solve_grid zeroFloatOps
        ⟨1, 1, 7 / 2, 23 / 10, 7 / 5, 1 / 1000, none, K1_BASE, K2, K3, 0,
          3 / 2, none, none, 1 / 2⟩
      = solve_grid zeroFloatOps
        ⟨1, 1, 7 / 2, 23 / 10, 7 / 5, 1 / 1000, none, K1_BASE, K2, K3, 0,
          3 / 2, none, none, 1 / 2⟩ :=
  solving_deterministic zeroFloatOps _ _ rfl

/-! ## C10 — profile bookkeeping invariants -/

/-- The pressure walk produces one output pair per input element. -/
theorem loss_walk_length {α : Type} (f : α → ℚ) :
    ∀ (l : List α) (p c : ℚ), (loss_walk f l p c).length = l.length := by
  intro l
  induction l with
  | nil => intro p c; rfl
  | cons x rest ih => intro p c; simp [loss_walk, ih]

/-- Every pair the pressure walk records sums to the starting
`pressure + cumulative loss`. -/
theorem loss_walk_pair_sum {α : Type} (f : α → ℚ) :
    ∀ (l : List α) (p c : ℚ) (pr : ℚ × ℚ),
      pr ∈ loss_walk f l p c → pr.1 + pr.2 = p + c := by
  intro l
  induction l with
  | nil => intro p c pr h; simp [loss_walk] at h
  | cons x rest ih =>
    intro p c pr h
    simp only [loss_walk, List.mem_cons] at h
    rcases h with h | h
    · rw [h]; ring
    · have := ih (p - f x) (c + f x) pr h
      linarith

/-- `getLast` as a positional lookup at the last index. -/
theorem getLast_eq_getD (l : List ℚ) (h : l ≠ []) (d : ℚ) :
    l.getLast h = l.getD (l.length - 1) d := by
  have hpos : 0 < l.length := List.length_pos.mpr h
  rw [List.getLast_eq_getElem, List.getD_eq_getElem l d (by omega)]

/-- Shape, pointwise identity and last-entry lookup of the
`inlet :: walk` profile lists shared by the tree and grid branch
profiles. -/
theorem profile_lists_spec (f : ℕ × HeadJunction → ℚ) (juncs : List HeadJunction)
    (P K3loss : ℚ) :
    (P :: (loss_walk f juncs.enum (P - K3loss) K3loss).map Prod.fst).length
        = juncs.length + 1 ∧
    ((0 : ℚ) :: (loss_walk f juncs.enum (P - K3loss) K3loss).map Prod.snd).length
        = juncs.length + 1 ∧
    (∀ k, k < juncs.length + 1 →
      (P :: (loss_walk f juncs.enum (P - K3loss) K3loss).map Prod.fst).getD k 0
        + ((0 : ℚ) :: (loss_walk f juncs.enum (P - K3loss) K3loss).map
            Prod.snd).getD k 0
        = P) ∧
    (P :: (loss_walk f juncs.enum (P - K3loss) K3loss).map Prod.fst).getLast
        (List.cons_ne_nil _ _)
      = (P :: (loss_walk f juncs.enum (P - K3loss) K3loss).map Prod.fst).getD
          juncs.length 0 := by
  have hlen : (loss_walk f juncs.enum (P - K3loss) K3loss).length
      = juncs.length := by
    rw [loss_walk_length, List.enum_length]
  refine ⟨by simp [hlen], by simp [hlen], ?_, ?_⟩
  · intro k hk
    cases k with
    | zero => simp
    | succ k =>
      have hk' : k < (loss_walk f juncs.enum (P - K3loss) K3loss).length := by
        omega
      rw [List.getD_cons_succ, List.getD_cons_succ,
        List.getD_eq_getElem _ _ (by simpa using hk'),
        List.getD_eq_getElem _ _ (by simpa using hk'),
        List.getElem_map, List.getElem_map]
      have hmem : (loss_walk f juncs.enum (P - K3loss) K3loss)[k]
          ∈ loss_walk f juncs.enum (P - K3loss) K3loss := by
        exact List.getElem_mem hk'
      have hsum := loss_walk_pair_sum f juncs.enum (P - K3loss) K3loss _ hmem
      linarith
  · rw [getLast_eq_getD _ _ 0]
    simp [hlen]

/-- C10 (as amended): the tree branch profile, and the grid branch
profile away from its degenerate early return, carry
`positions` / `pressures_mpa` / `cumulative_loss_mpa` lists of length
`m + 1`, satisfy `pressures[k] + cumulative_loss[k] = branch inlet
pressure` at every index, and report the last pressure entry as the
terminal pressure; the grid computation, when the branch has no heads
or carries less than 0.01 LPM, instead returns the single-entry
profile (where the same identity holds trivially). -/
theorem branch_profile_invariants (fops : FloatOps) (K3v : ℚ) :
    (∀ (branch : BranchPipe) (P : ℚ),
      branch.junctions.length = branch.num_heads →
      1 ≤ branch.num_heads →
      (calculate_branch_profile fops branch P K3v).positions.length
          = branch.num_heads + 1 ∧
      (calculate_branch_profile fops branch P K3v).pressures_mpa.length
          = branch.num_heads + 1 ∧
      (calculate_branch_profile fops branch P K3v).cumulative_loss_mpa.length
          = branch.num_heads + 1 ∧
      (∀ k, k < branch.num_heads + 1 →
        (calculate_branch_profile fops branch P K3v).pressures_mpa.getD k 0
          + (calculate_branch_profile fops branch P K3v).cumulative_loss_mpa.getD k 0
          = P) ∧
      (calculate_branch_profile fops branch P K3v).terminal_pressure_mpa
          = (calculate_branch_profile fops branch P K3v).pressures_mpa.getD
              branch.num_heads 0) ∧
    (∀ (pipe : GridPipe) (P Q : ℚ),
      pipe.junctions.length = pipe.heads_per_branch →
      1 ≤ pipe.heads_per_branch →
      1 / 100 ≤ Q →
      (calculate_grid_branch_profile fops pipe P Q K3v).positions.length
          = pipe.heads_per_branch + 1 ∧
      (calculate_grid_branch_profile fops pipe P Q K3v).pressures_mpa.length
          = pipe.heads_per_branch + 1 ∧
      (calculate_grid_branch_profile fops pipe P Q K3v).cumulative_loss_mpa.length
          = pipe.heads_per_branch + 1 ∧
      (∀ k, k < pipe.heads_per_branch + 1 →
        (calculate_grid_branch_profile fops pipe P Q K3v).pressures_mpa.getD k 0
          + (calculate_grid_branch_profile fops pipe P Q K3v).cumulative_loss_mpa.getD k 0
          = P) ∧
      (calculate_grid_branch_profile fops pipe P Q K3v).terminal_pressure_mpa
          = (calculate_grid_branch_profile fops pipe P Q K3v).pressures_mpa.getD
              pipe.heads_per_branch 0) ∧
    (∀ (pipe : GridPipe) (P Q : ℚ),
      pipe.heads_per_branch = 0 ∨ Q < 1 / 100 →
      calculate_grid_branch_profile fops pipe P Q K3v
        = ⟨[0], [P], [0], P, 0⟩) := by
  refine ⟨?_, ?_, ?_⟩
  · intro branch P hm _
    have base := profile_lists_spec
      (tree_seg_loss fops branch.weld_beads branch.branch_flow_lpm
        (branch.branch_flow_lpm / branch.num_heads))
      branch.junctions P
      (head_to_mpa (minor_loss K3v (velocity_from_flow fops
        branch.branch_flow_lpm
        (branch.junctions.headD default).pipe_segment.inner_diameter_m)))
    simp only [calculate_branch_profile]
    rw [hm] at base
    exact ⟨by simp, base.1, base.2.1, base.2.2.1, base.2.2.2⟩
  · intro pipe P Q hm hpos hQ
    have hcond : ¬(pipe.heads_per_branch = 0 ∨ Q < 1 / 100) :=
      not_or.mpr ⟨by omega, not_lt.mpr hQ⟩
    have base := profile_lists_spec
      (grid_profile_seg_loss fops pipe.weld_beads Q (Q / pipe.heads_per_branch))
      pipe.junctions P
      (head_to_mpa (minor_loss K3v (velocity_from_flow fops Q
        (pipe.junctions.headD default).pipe_segment.inner_diameter_m)))
    simp only [calculate_grid_branch_profile, hcond, if_false]
    rw [hm] at base
    exact ⟨by simp, base.1, base.2.1, base.2.2.1, base.2.2.2⟩
  · intro pipe P Q h
    simp only [calculate_grid_branch_profile]
    rw [if_pos h]

/-- C10 counterexample: on the valid 1-branch × 1-head grid at
0.001 LPM (branch flow below 0.01 LPM), the profile the grid pressure
computation returns for branch 0 has a `positions` list of length 1,
not `m + 1 = 2`. -/
theorem grid_profile_degenerate_cex :
    ((calculate_grid_pressures zeroFloatOps gridNet_tiny K1_BASE K3
        none).branch_profiles.getD 0 default).positions.length = 1 ∧
    gridNet_tiny.heads_per_branch = 1 ∧
    ((calculate_grid_pressures zeroFloatOps gridNet_tiny K1_BASE K3
        none).branch_profiles.getD 0 default).positions.length
      ≠ gridNet_tiny.heads_per_branch + 1 := by
  refine ⟨?_, ?_, ?_⟩ <;> with_unfolding_all decide

/-- Witness for C10's amended theorem: a one-head branch at 60000 LPM
keeps the identity and the `m + 1` shape; checked here on the tree
half at head index 1. -/
theorem branch_profile_invariants_witness :
    (({ branch_index := 0, num_heads := 1,
        junctions := build_junctions 1 (23 / 10) [0] K1_BASE K2 60000,
        branch_flow_lpm := 60000, pipe_sizes := [], weld_beads := [] }
          : BranchPipe).junctions.length
        = 1) ∧
    (calculate_branch_profile zeroFloatOps
      { branch_index := 0, num_heads := 1,
        junctions := build_junctions 1 (23 / 10) [0] K1_BASE K2 60000,
        branch_flow_lpm := 60000, pipe_sizes := [], weld_beads := [] }
      (7 / 5) K3).pressures_mpa.getD 1 0
      + (calculate_branch_profile zeroFloatOps
      { branch_index := 0, num_heads := 1,
        junctions := build_junctions 1 (23 / 10) [0] K1_BASE K2 60000,
        branch_flow_lpm := 60000, pipe_sizes := [], weld_beads := [] }
      (7 / 5) K3).cumulative_loss_mpa.getD 1 0 = 7 / 5 := by
  constructor
  · with_unfolding_all decide
  · exact ((branch_profile_invariants zeroFloatOps K3).1
      { branch_index := 0, num_heads := 1,
        junctions := build_junctions 1 (23 / 10) [0] K1_BASE K2 60000,
        branch_flow_lpm := 60000, pipe_sizes := [], weld_beads := [] }
      (7 / 5) (by with_unfolding_all decide) (by norm_num)).2.2.2.1 1
      (by norm_num)

/-! ## C6 — bead-height monotonicity of the tree terminal pressure -/

/-- Every tabulated inner diameter is positive. -/
theorem id_mm_pos (s : PipeSize) : 0 < id_mm s := by
  cases s <;> norm_num [id_mm]

/-- `k_welded_fitting_fin` is strictly increasing in the bead height on
`(−∞, D/2)` for a positive base coefficient. -/
theorem k_fin_strict_mono (D baseK bead bead' : ℚ) (hD : 0 < D) (hb : 0 < baseK)
    (hlt : bead < bead') (hhalf : bead' < D / 2) :
    k_welded_fitting_fin bead D baseK < k_welded_fitting_fin bead' D baseK := by
  unfold k_welded_fitting_fin
  have ha : 0 < D - 2 * bead' := by linarith
  have hb2 : 0 < D - 2 * bead := by linarith
  have hratio : D / (D - 2 * bead) < D / (D - 2 * bead') :=
    div_lt_div_of_pos_left hD ha (by linarith)
  have hr0 : 0 ≤ D / (D - 2 * bead) := le_of_lt (div_pos hD hb2)
  have hpow : (D / (D - 2 * bead)) ^ 4 < (D / (D - 2 * bead')) ^ 4 :=
    pow_lt_pow_left₀ hratio hr0 (by norm_num)
  exact mul_lt_mul_of_pos_left hpow hb

/-- Positive flow through a positive diameter gives positive velocity
(for a positive stand-in of `math.pi`). -/
theorem velocity_from_flow_pos (fops : FloatOps) (hpi : 0 < fops.pi)
    (Q D : ℚ) (hQ : 0 < Q) (hD : 0 < D) :
    0 < velocity_from_flow fops Q D := by
  unfold velocity_from_flow
  have hA : 0 < fops.pi * (D / 2) ^ 2 := by positivity
  rw [if_neg (not_le.mpr hA)]
  positivity

/-- The converted minor loss is strictly increasing in the K-factor at
positive velocity. -/
theorem head_to_mpa_minor_lt (K K' V : ℚ) (hK : K < K') (hV : 0 < V) :
    head_to_mpa (minor_loss K V) < head_to_mpa (minor_loss K' V) := by
  have heq : ∀ K0 : ℚ, head_to_mpa (minor_loss K0 V)
      = K0 * (998 / 2000000 * V ^ 2) := by
    intro K0
    unfold head_to_mpa minor_loss RHO G
    ring
  rw [heq, heq]
  have hv2 : 0 < V ^ 2 := pow_pos hV 2
  exact mul_lt_mul_of_pos_right hK (mul_pos (by norm_num) hv2)

/-- A head-segment loss strictly increases when only the junction's K1
coefficient increases, at positive segment velocity. -/
theorem tree_seg_loss_K1_lt (fops : FloatOps) (welds : List WeldBead)
    (Q hf : ℚ) (i : ℕ) (j j' : HeadJunction)
    (hseg : j'.pipe_segment = j.pipe_segment) (hK2 : j'.K2_head = j.K2_head)
    (hK1 : j.K1_welded < j'.K1_welded)
    (hV : 0 < velocity_from_flow fops (Q - i * hf)
      j.pipe_segment.inner_diameter_m) :
    tree_seg_loss fops welds Q hf (i, j) < tree_seg_loss fops welds Q hf (i, j') := by
  unfold tree_seg_loss
  simp only [hseg, hK2]
  have := head_to_mpa_minor_lt j.K1_welded j'.K1_welded
    (velocity_from_flow fops (Q - i * hf) j.pipe_segment.inner_diameter_m)
    hK1 hV
  linarith

/-- List-range sums as `Finset.range` sums. -/
theorem range_map_sum (g : ℕ → ℚ) :
    ∀ n : ℕ, ((List.range n).map g).sum = ∑ i in Finset.range n, g i := by
  intro n
  induction n with
  | zero => simp
  | succ n ih =>
    rw [List.range_succ, Finset.sum_range_succ, List.map_append, List.sum_append,
      ih]
    simp

/-- Positional lookup through a map over `List.range`. -/
theorem getD_map_range {β : Type} (n b : ℕ) (f : ℕ → β) (d : β) (hb : b < n) :
    ((List.range n).map f).getD b d = f b := by
  rw [List.getD_eq_getElem _ _ (by simpa using hb), List.getElem_map,
    List.getElem_range]

/-- Enumerating a map over `List.range` pairs each index with its
image. -/
theorem enum_map_range {β : Type} (n : ℕ) (f : ℕ → β) :
    ((List.range n).map f).enum = (List.range n).map (fun i => (i, f i)) := by
  rw [List.enum_eq_zip_range, List.length_map, List.length_range]
  calc (List.range n).zip ((List.range n).map f)
      = ((List.range n).map id).zip ((List.range n).map f) := by rw [List.map_id]
    _ = (List.range n).map (fun i => (id i, f i)) := List.zip_map' id f _
    _ = (List.range n).map (fun i => (i, f i)) := by simp

/-- `getLast` of a cons as `getLastD` of the tail. -/
theorem getLast_cons_eq_getLastD :
    ∀ (l : List ℚ) (a : ℚ), (a :: l).getLast (List.cons_ne_nil a l) = l.getLastD a := by
  intro l
  induction l with
  | nil => intro a; rfl
  | cons b rest ih =>
    intro a
    rw [List.getLast_cons (List.cons_ne_nil b rest), ih b, List.getLastD_cons]

/-- The last recorded pressure of a non-empty walk is the start minus
the summed losses. -/
theorem loss_walk_fst_getLastD {α : Type} (f : α → ℚ) :
    ∀ (l : List α) (p c d : ℚ), l ≠ [] →
      ((loss_walk f l p c).map Prod.fst).getLastD d = p - (l.map f).sum := by
  intro l
  induction l with
  | nil => intro p c d h; exact absurd rfl h
  | cons x rest ih =>
    intro p c d _
    simp only [loss_walk, List.map_cons, List.sum_cons, List.getLastD_cons]
    cases rest with
    | nil =>
      simp [loss_walk]
    | cons y t =>
      rw [ih (p - f x) (c + f x) (p - f x) (List.cons_ne_nil y t)]
      ring

/-- Closed form of the tree branch terminal pressure: inlet minus the
K3 entry loss minus the summed per-head losses. -/
theorem calculate_branch_profile_terminal (fops : FloatOps)
    (branch : BranchPipe) (P K3v : ℚ) (hne : branch.junctions ≠ []) :
    (calculate_branch_profile fops branch P K3v).terminal_pressure_mpa
      = P
        - head_to_mpa (minor_loss K3v (velocity_from_flow fops
            branch.branch_flow_lpm
            (branch.junctions.headD default).pipe_segment.inner_diameter_m))
        - (branch.junctions.enum.map (tree_seg_loss fops branch.weld_beads
            branch.branch_flow_lpm
            (branch.branch_flow_lpm / branch.num_heads))).sum := by
  have hne2 : branch.junctions.enum ≠ [] := by
    have : branch.junctions.enum.length = branch.junctions.length :=
      List.enum_length
    intro hcon
    rw [hcon] at this
    exact hne (List.eq_nil_of_length_eq_zero this.symm)
  simp only [calculate_branch_profile]
  rw [getLast_cons_eq_getLastD, loss_walk_fst_getLastD _ _ _ _ _ hne2]



/-- Entry `b` of `all_terminal_pressures` is the terminal pressure of
branch `b`'s profile at its tap pressure. -/
theorem calc_dyn_terminal_getD (fops : FloatOps) (sys : DynamicSystem)
    (K3v : ℚ) (b : ℕ) (hb : b < sys.num_branches) :
    (calculate_dynamic_system fops sys K3v).all_terminal_pressures.getD b 0
      = (calculate_branch_profile fops (sys.branches.getD b default)
          ((calculate_dynamic_system fops sys
            K3v).branch_inlet_pressures.getD b 0) K3v).terminal_pressure_mpa := by
  simp only [calculate_dynamic_system]
  rw [List.map_map, getD_map_range _ _ _ _ hb]
  simp only [Function.comp]



/-- C6: in the generated tree system with positive total flow,
increasing the fitting bead height at one junction `(b, j)` of the bead
array (everything else fixed; the varied height staying below half that
segment's diameter) strictly decreases branch `b`'s terminal pressure —
the cross-main walk, hence the branch tap pressure, does not depend on
bead heights at all, so the terminal is unchanged only when the heights
are equal. -/
theorem tree_terminal_bead_monotone
    (fops : FloatOps) (hpi : 0 < fops.pi)
    (nb m : ℕ) (bs hs P Q : ℚ) (hQ : 0 < Q)
    (K1b : ℚ) (hK1b : 0 < K1b) (K2v K3v : ℚ) (bpb : ℕ) (bhw : ℚ)
    (wb2d : Option (List (List WeldBead))) (rng : Option (List (List ℚ)))
    (B B' : List (List ℚ)) (b j : ℕ) (hb : b < nb) (hj : j < m)
    (hagree : ∀ i, i ≠ j → (B.getD b []).getD i 0 = (B'.getD b []).getD i 0)
    (hlt : (B.getD b []).getD j 0 < (B'.getD b []).getD j 0)
    (hhalf : (B'.getD b []).getD j 0 < id_mm (auto_pipe_size ((m : ℤ) - j)) / 2) :
    (calculate_dynamic_system fops (build_dynamic_system nb m bs hs P Q
        (some B') K1b K2v bpb bhw wb2d rng) K3v).all_terminal_pressures.getD b 0
      < (calculate_dynamic_system fops (build_dynamic_system nb m bs hs P Q
        (some B) K1b K2v bpb bhw wb2d rng) K3v).all_terminal_pressures.getD b 0 := by
  have hnb0 : 0 < nb := by omega
  have hm0 : 0 < m := by omega
  have hmQ : (0 : ℚ) < m := by exact_mod_cast hm0
  have hQb : 0 < Q / (nb : ℚ) := div_pos hQ (by exact_mod_cast hnb0)
  have hflowj : 0 < Q / (nb : ℚ) - (j : ℚ) * (Q / (nb : ℚ) / (m : ℚ)) := by
    have hjm : (j : ℚ) < m := by exact_mod_cast hj
    have heq : Q / (nb : ℚ) - (j : ℚ) * (Q / (nb : ℚ) / (m : ℚ))
        = Q / (nb : ℚ) * ((m : ℚ) - j) / m := by
      field_simp
      ring
    rw [heq]
    exact div_pos (mul_pos hQb (by linarith)) hmQ
  set jfun : List ℚ → ℕ → HeadJunction := fun rows h =>
    { index := h
      pipe_segment :=
        { index := h
          nominal_size := auto_pipe_size ((m : ℤ) - (h : ℤ))
          inner_diameter_m := get_inner_diameter_m (auto_pipe_size ((m : ℤ) - (h : ℤ)))
          length_m := hs }
      bead_height_mm := rows.getD h 0
      K1_welded := k_welded_fitting_fin (rows.getD h 0)
        (id_mm (auto_pipe_size ((m : ℤ) - (h : ℤ)))) K1b
      K2_head := K2v
      head_flow_lpm := Q / (nb : ℚ) / (m : ℚ) } with hjfun
  have hbj : ∀ rows : List ℚ,
      build_junctions m hs rows K1b K2v (Q / (nb : ℚ) / (m : ℚ))
        = (List.range m).map (jfun rows) := fun rows => rfl
  set branchR : List (List ℚ) → BranchPipe := fun rows =>
    { branch_index := b
      num_heads := m
      junctions := build_junctions m hs (rows.getD b []) K1b K2v
        (Q / (nb : ℚ) / (m : ℚ))
      branch_flow_lpm := Q / (nb : ℚ)
      pipe_sizes := build_pipe_sizes m
      weld_beads := build_branch_beads m hs bpb bhw (build_pipe_sizes m)
        K1b wb2d rng b } with hbranchR
  have hbranch : ∀ rows : List (List ℚ),
      (build_dynamic_system nb m bs hs P Q (some rows) K1b K2v bpb bhw wb2d
        rng).branches.getD b default = branchR rows := by
    intro rows
    show ((List.range nb).map _).getD b default = _
    rw [getD_map_range _ _ _ _ hb]
    rfl
  have hinlet :
      (calculate_dynamic_system fops (build_dynamic_system nb m bs hs P Q
        (some B') K1b K2v bpb bhw wb2d rng) K3v).branch_inlet_pressures.getD b 0
      = (calculate_dynamic_system fops (build_dynamic_system nb m bs hs P Q
        (some B) K1b K2v bpb bhw wb2d rng) K3v).branch_inlet_pressures.getD b 0 :=
    rfl
  have hne : ∀ rows : List (List ℚ), (branchR rows).junctions ≠ [] := by
    intro rows hcon
    have hlen := congrArg List.length hcon
    simp only [hbranchR, hbj] at hlen
    simp at hlen
    omega
  rw [calc_dyn_terminal_getD fops _ K3v b hb, calc_dyn_terminal_getD fops _ K3v b hb,
    hbranch B, hbranch B', hinlet,
    calculate_branch_profile_terminal fops (branchR B') _ K3v (hne B'),
    calculate_branch_profile_terminal fops (branchR B) _ K3v (hne B)]
  simp only [hbranchR, hbj]
  obtain ⟨k, rfl⟩ : ∃ k, m = k + 1 := ⟨m - 1, by omega⟩
  have hhead : ∀ rows : List ℚ,
      (((List.range (k + 1)).map (jfun rows)).headD default).pipe_segment
        = (jfun rows 0).pipe_segment := by
    intro rows
    rw [List.range_succ_eq_map]
    simp
  rw [hhead, hhead]
  have hsegeq : (jfun (B'.getD b []) 0).pipe_segment
      = (jfun (B.getD b []) 0).pipe_segment := rfl
  rw [hsegeq]
  have hconv : ∀ rows : List ℚ,
      (((List.range (k + 1)).map (jfun rows)).enum.map
        (tree_seg_loss fops
          (build_branch_beads (k + 1) hs bpb bhw (build_pipe_sizes (k + 1)) K1b
            wb2d rng b)
          (Q / (nb : ℚ)) (Q / (nb : ℚ) / ((k + 1 : ℕ) : ℚ)))).sum
      = ∑ i in Finset.range (k + 1),
          tree_seg_loss fops
            (build_branch_beads (k + 1) hs bpb bhw (build_pipe_sizes (k + 1)) K1b
              wb2d rng b)
            (Q / (nb : ℚ)) (Q / (nb : ℚ) / ((k + 1 : ℕ) : ℚ)) (i, jfun rows i) := by
    intro rows
    rw [enum_map_range, List.map_map, range_map_sum]
    rfl
  rw [hconv, hconv]
  have hsum : (∑ i in Finset.range (k + 1),
        tree_seg_loss fops
          (build_branch_beads (k + 1) hs bpb bhw (build_pipe_sizes (k + 1)) K1b
            wb2d rng b)
          (Q / (nb : ℚ)) (Q / (nb : ℚ) / ((k + 1 : ℕ) : ℚ)) (i, jfun (B.getD b []) i))
      < ∑ i in Finset.range (k + 1),
          tree_seg_loss fops
            (build_branch_beads (k + 1) hs bpb bhw (build_pipe_sizes (k + 1)) K1b
              wb2d rng b)
            (Q / (nb : ℚ)) (Q / (nb : ℚ) / ((k + 1 : ℕ) : ℚ)) (i, jfun (B'.getD b []) i) := by
    have hstrict : tree_seg_loss fops
        (build_branch_beads (k + 1) hs bpb bhw (build_pipe_sizes (k + 1)) K1b
          wb2d rng b)
        (Q / (nb : ℚ)) (Q / (nb : ℚ) / ((k + 1 : ℕ) : ℚ)) (j, jfun (B.getD b []) j)
        < tree_seg_loss fops
        (build_branch_beads (k + 1) hs bpb bhw (build_pipe_sizes (k + 1)) K1b
          wb2d rng b)
        (Q / (nb : ℚ)) (Q / (nb : ℚ) / ((k + 1 : ℕ) : ℚ)) (j, jfun (B'.getD b []) j) := by
      apply tree_seg_loss_K1_lt
      · rfl
      · rfl
      · exact k_fin_strict_mono _ _ _ _ (id_mm_pos _) hK1b hlt hhalf
      · apply velocity_from_flow_pos fops hpi _ _ hflowj
        exact div_pos (id_mm_pos _) (by norm_num)
    apply Finset.sum_lt_sum
    · intro i _
      by_cases hij : i = j
      · subst hij
        exact le_of_lt hstrict
      · apply le_of_eq
        have hji : jfun (B.getD b []) i = jfun (B'.getD b []) i := by
          simp only [hjfun]
          rw [hagree i hij]
        rw [hji]
    · exact ⟨j, Finset.mem_range.mpr hj, hstrict⟩
  linarith


/-- Witness for C6: raising the single bead of a 1-branch × 1-head tree
from 0 mm to 1 mm (below half the 26.64 mm diameter) strictly lowers
that branch's terminal pressure. -/
theorem tree_terminal_bead_monotone_witness :
    (calculate_dynamic_system ⟨3, fun _ => 0, fun _ => 0⟩
        (build_dynamic_system 1 1 1 1 (7 / 5) 400 (some [[1]]) K1_BASE K2 0
          (3 / 2) none none) K3).all_terminal_pressures.getD 0 0
      < (calculate_dynamic_system ⟨3, fun _ => 0, fun _ => 0⟩
        (build_dynamic_system 1 1 1 1 (7 / 5) 400 (some [[0]]) K1_BASE K2 0
          (3 / 2) none none) K3).all_terminal_pressures.getD 0 0 :=
  tree_terminal_bead_monotone ⟨3, fun _ => 0, fun _ => 0⟩ (by norm_num)
    1 1 1 1 (7 / 5) 400 (by norm_num) K1_BASE (by norm_num [K1_BASE]) K2 K3 0
    (3 / 2) none none [[0]] [[1]] 0 0 (by norm_num) (by norm_num)
    (fun i hi => by
      cases i with
      | zero => exact absurd rfl hi
      | succ n => simp)
    (by norm_num) (by norm_num [id_mm, auto_pipe_size])

end FiPLSim
